import Mathlib

/-!
Verification development for the GNSSSignalSim GUI configuration core.

The development shallowly embeds the three core components of the
repository (time-system conversion, RINEX navigation parsing, and the
configuration data model with its JSON (de)serialization) and proves the
spec claims about them.

Conventions of the embedding:
* Python `datetime` instants are represented as exact rational numbers of
  seconds since 0001-01-01T00:00:00 in the proleptic Gregorian calendar
  (the calendar used by Python `datetime`).  Python `timedelta` arithmetic
  is exact at this resolution for the inputs exercised here.
* Python `float` values are represented as `Rat`; the claims under study
  only involve values on which binary floating point is exact.
* Fallible Python code (`raise` / `try`-`except`) is represented with
  `Option` / `Except`.
-/

namespace GnssSim

/-! ## Calendar arithmetic (model of the proleptic Gregorian calendar used
by Python `datetime`) -/

/-- Gregorian leap-year rule, as used by `datetime`. -/
def isLeapYear (y : Int) : Bool :=
  (y % 4 == 0 && y % 100 != 0) || y % 400 == 0

/-- Cumulative days before the given month in a non-leap year. -/
def daysBeforeMonthBase (m : Int) : Int :=
  if m ≤ 1 then 0
  else if m = 2 then 31
  else if m = 3 then 59
  else if m = 4 then 90
  else if m = 5 then 120
  else if m = 6 then 151
  else if m = 7 then 181
  else if m = 8 then 212
  else if m = 9 then 243
  else if m = 10 then 273
  else if m = 11 then 304
  else 334

/-- Days in a month of a given year. -/
def daysInMonth (y m : Int) : Int :=
  if m = 2 then (if isLeapYear y then 29 else 28)
  else if m = 4 ∨ m = 6 ∨ m = 9 ∨ m = 11 then 30
  else 31

/-- Proleptic-Gregorian ordinal of a date: day number with
0001-01-01 mapped to 1, exactly like `datetime.toordinal()`. -/
def dateToOrdinal (y m d : Int) : Int :=
  365 * (y - 1) + (y - 1) / 4 - (y - 1) / 100 + (y - 1) / 400
    + daysBeforeMonthBase m + (if 2 < m ∧ isLeapYear y then 1 else 0) + d

/-- A `datetime` instant as rational seconds since 0001-01-01T00:00:00. -/
def dtQ (y m d h mi : Int) (s : Rat) : Rat :=
  (((dateToOrdinal y m d - 1) * 86400 + h * 3600 + mi * 60 : Int) : Rat) + s

/-! ## Time conversion engine (src/core/data/time_conversions.py) -/

/-- The `TimeSystem` enum of the source. -/
inductive TimeSystemE
  | UTC
  | GPS
  | GLONASS
  | BDS
  | GALILEO
deriving DecidableEq

/-- Result record of a conversion, mirroring the `TimeConversion`
dataclass of the source. -/
structure TimeConversionQ where
  originalTime : Rat
  convertedTime : Rat
  originalSystem : TimeSystemE
  targetSystem : TimeSystemE
  leapSecondsApplied : Int
  conversionAccuracy : String
deriving DecidableEq

/-- `TimeConverter.GPS_EPOCH`: January 6, 1980 00:00:00 UTC. -/
def GPS_EPOCH : Rat := dtQ 1980 1 6 0 0 0

/-- `TimeConverter.GLONASS_UTC_OFFSET`: 3 hours. -/
def GLONASS_UTC_OFFSET : Rat := 3 * 3600

/-- `TimeConverter.LEAP_SECONDS_TABLE`: the static table of
(effective date, cumulative leap seconds since 1972) pairs. -/
def LEAP_SECONDS_TABLE : List (Rat × Int) :=
  [ (dtQ 1972 7 1 0 0 0, 1)
  , (dtQ 1973 1 1 0 0 0, 2)
  , (dtQ 1974 1 1 0 0 0, 3)
  , (dtQ 1975 1 1 0 0 0, 4)
  , (dtQ 1976 1 1 0 0 0, 5)
  , (dtQ 1977 1 1 0 0 0, 6)
  , (dtQ 1978 1 1 0 0 0, 7)
  , (dtQ 1979 1 1 0 0 0, 8)
  , (dtQ 1980 1 1 0 0 0, 9)
  , (dtQ 1981 7 1 0 0 0, 10)
  , (dtQ 1982 7 1 0 0 0, 11)
  , (dtQ 1983 7 1 0 0 0, 12)
  , (dtQ 1985 7 1 0 0 0, 13)
  , (dtQ 1988 1 1 0 0 0, 14)
  , (dtQ 1990 1 1 0 0 0, 15)
  , (dtQ 1991 1 1 0 0 0, 16)
  , (dtQ 1992 7 1 0 0 0, 17)
  , (dtQ 1993 7 1 0 0 0, 18)
  , (dtQ 1994 7 1 0 0 0, 19)
  , (dtQ 1996 1 1 0 0 0, 20)
  , (dtQ 1997 7 1 0 0 0, 21)
  , (dtQ 1999 1 1 0 0 0, 22)
  , (dtQ 2006 1 1 0 0 0, 23)
  , (dtQ 2009 1 1 0 0 0, 24)
  , (dtQ 2012 7 1 0 0 0, 25)
  , (dtQ 2015 7 1 0 0 0, 26)
  , (dtQ 2017 1 1 0 0 0, 27)
  ]

/-- The scan of `TimeConverter._get_leap_seconds_for_date`: walk the table
in order, remembering the last entry whose date is not after the query
date, stopping at the first later entry. -/
def leapScan (date : Rat) (acc : Int) : List (Rat × Int) → Int
  | [] => acc
  | (d, ls) :: rest => if d ≤ date then leapScan date ls rest else acc

/-- `TimeConverter._get_leap_seconds_for_date(date)`, parameterized by the
table held in the converter object. -/
def leapSecondsForDate (table : List (Rat × Int)) (date : Rat) : Int :=
  leapScan date 0 table

/-- `TimeConverter.gps_to_utc(week, second)`. -/
def gpsToUtc (table : List (Rat × Int)) (week : Int) (second : Rat) :
    TimeConversionQ :=
  let gpsTime : Rat := GPS_EPOCH + 604800 * (week : Rat) + second
  let leap : Int := leapSecondsForDate table gpsTime
  { originalTime := gpsTime
  , convertedTime := gpsTime - (leap : Rat)
  , originalSystem := TimeSystemE.GPS
  , targetSystem := TimeSystemE.UTC
  , leapSecondsApplied := leap
  , conversionAccuracy := "exact" }

/-- `TimeConverter.utc_to_gps(utc_time)`: returns (week, second of week).
Python computes `week = int(total_seconds // 604800)` and
`second = total_seconds % 604800`, both with floor semantics. -/
def utcToGps (table : List (Rat × Int)) (utc : Rat) : Int × Rat :=
  let leap : Int := leapSecondsForDate table utc
  let gpsTime : Rat := utc + (leap : Rat)
  let total : Rat := gpsTime - GPS_EPOCH
  let week : Int := ⌊total / 604800⌋
  (week, total - 604800 * (week : Rat))

/-- `TimeConverter.glonass_to_utc(leap_year, day, second)`:
`datetime(1996+leap_year, 1, 1) + timedelta(days=day-1, seconds=second)`
is Moscow time; UTC is that minus 3 hours, with zero leap adjustment.
The table parameter models `self`; the source method never reads the
leap-second table. -/
def glonassToUtc (_table : List (Rat × Int)) (leapYear day : Int)
    (second : Rat) : TimeConversionQ :=
  let actualYear : Int := 1996 + leapYear
  let glonassTime : Rat := dtQ actualYear 1 1 0 0 0 + ((day - 1) * 86400 : Int) + second
  { originalTime := glonassTime
  , convertedTime := glonassTime - GLONASS_UTC_OFFSET
  , originalSystem := TimeSystemE.GLONASS
  , targetSystem := TimeSystemE.UTC
  , leapSecondsApplied := 0
  , conversionAccuracy := "exact" }

/-- Inverse of `dateToOrdinal`, returning (year, day of year).  This is a
transcription of the `divmod` cascade used by `datetime` internals
(`_ord2ymd`), reduced to the two quantities `utc_to_glonass` reads
(`moscow_time.year` and `timetuple().tm_yday`). -/
def ordinalToYearDoy (ord : Int) : Int × Int :=
  let n : Int := ord - 1
  let n400 : Int := n.fdiv 146097
  let r400 : Int := n.fmod 146097
  let n100 : Int := r400.fdiv 36524
  let r100 : Int := r400.fmod 36524
  let n4 : Int := r100.fdiv 1461
  let r4 : Int := r100.fmod 1461
  let n1 : Int := r4.fdiv 365
  let r1 : Int := r4.fmod 365
  let year : Int := n400 * 400 + 1 + n100 * 100 + n4 * 4 + n1
  if n1 = 4 ∨ n100 = 4 then (year - 1, 366) else (year, r1 + 1)

/-- `TimeConverter.utc_to_glonass(utc_time)`: returns
(leap_year, day of year, seconds into the day).  The table parameter
models `self`; the source method never reads the leap-second table. -/
def utcToGlonass (_table : List (Rat × Int)) (utc : Rat) :
    Int × Int × Rat :=
  let moscow : Rat := utc + GLONASS_UTC_OFFSET
  let ord : Int := ⌊moscow / 86400⌋ + 1
  let secondsIntoDay : Rat := moscow - ((ord - 1) * 86400 : Int)
  let yd : Int × Int := ordinalToYearDoy ord
  (yd.1 - 1996, yd.2, secondsIntoDay)

/-! ## Python string primitives used by the RINEX parser
(src/core/data/rinex_parser.py).  Strings are handled as their character
lists; file lines are modeled without their trailing newline. -/

/-- Python whitespace test for `str.strip()` (ASCII subset, which is all
that occurs in RINEX fixed-column files). -/
def isPySpace (c : Char) : Bool :=
  c == ' ' || c == '\t' || c == '\n' || c == '\r' || c == '\x0b' || c == '\x0c'

/-- `str.strip()` on a character list. -/
def pyStripL (l : List Char) : List Char :=
  ((l.dropWhile isPySpace).reverse.dropWhile isPySpace).reverse

/-- `str.strip()`. -/
def pyStrip (s : String) : String := ⟨pyStripL s.data⟩

/-- Python slicing `s[a:b]` for `0 ≤ a ≤ b` (out-of-range bounds are
clamped, exactly as in Python). -/
def pySlice (s : String) (a b : Nat) : String := ⟨(s.data.drop a).take (b - a)⟩

/-- Digit accumulator for `int()`. -/
def digitsValGo (acc : Nat) : List Char → Option Nat
  | [] => Option.some acc
  | c :: rest =>
      if c.isDigit then digitsValGo (acc * 10 + (c.toNat - 48)) rest
      else Option.none

/-- Value of a nonempty all-digit string. -/
def digitsVal : List Char → Option Nat
  | [] => Option.none
  | l => digitsValGo 0 l

/-- Python `int(s)` on decimal text: strips whitespace, allows one sign,
then requires a nonempty digit run.  (Underscore separators and non-ASCII
digits, which never occur in RINEX columns, are not modeled.) -/
def pyInt (s : String) : Option Int :=
  match pyStripL s.data with
  | '-' :: rest => (digitsVal rest).map (fun n => -(n : Int))
  | '+' :: rest => (digitsVal rest).map (fun n => (n : Int))
  | l => (digitsVal l).map (fun n => (n : Int))

/-- Fractional-digit accumulator for `float()`: returns numerator and
power-of-ten denominator. -/
def fracValGo (num den : Nat) : List Char → Option (Nat × Nat)
  | [] => Option.some (num, den)
  | c :: rest =>
      if c.isDigit then fracValGo (num * 10 + (c.toNat - 48)) (den * 10) rest
      else Option.none

/-- `float()` body after sign removal: `digits`, `digits.`, `.digits` or
`digits.digits`. -/
def pyFloatCore (l : List Char) : Option Rat :=
  let ip := l.takeWhile Char.isDigit
  let rest := l.dropWhile Char.isDigit
  match rest with
  | [] => if ip.isEmpty then Option.none else (digitsVal ip).map (fun n => (n : Rat))
  | '.' :: fp =>
      if ip.isEmpty && fp.isEmpty then Option.none
      else
        match fracValGo 0 1 fp with
        | Option.some nd =>
            Option.some ((digitsValGo 0 ip).getD 0 + (nd.1 : Rat) / (nd.2 : Rat))
        | Option.none => Option.none
  | _ => Option.none

/-- Python `float(s)` on plain decimal text (exponent forms, `inf`/`nan`
and underscore separators never occur in the fixed RINEX epoch columns
and are not modeled). -/
def pyFloat (s : String) : Option Rat :=
  match pyStripL s.data with
  | '-' :: rest => (pyFloatCore rest).map (fun q => -q)
  | '+' :: rest => pyFloatCore rest
  | l => pyFloatCore l

/-- Python `int(x)` on a float: truncation toward zero. -/
def truncQ (q : Rat) : Int := if 0 ≤ q then q.floor else q.ceil

/-- Bool test that `needle` occurs in `hay` (Python `needle in hay`). -/
def containsAux (nd : List Char) : List Char → Bool
  | [] => nd.isEmpty
  | c :: rest => nd.isPrefixOf (c :: rest) || containsAux nd rest

/-- Python substring containment `needle in hay`. -/
def containsSub (needle hay : String) : Bool := containsAux needle.data hay.data

/-- Python `s.startswith(p)`. -/
def pyStartsWith (s p : String) : Bool := p.data.isPrefixOf s.data

/-! ## RINEX parser data model -/

/-- The `RinexVersion` enum. -/
inductive RinexVersionE
  | V2
  | V3
  | V4
deriving DecidableEq

/-- The `SatelliteSystem` enum. -/
inductive SatelliteSystemE
  | GPS
  | GLONASS
  | GALILEO
  | BEIDOU
  | QZSS
  | IRNSS
  | SBAS
deriving DecidableEq

/-- The `EphemerisRecord` dataclass. -/
structure EphemerisRecordQ where
  satelliteSystem : SatelliteSystemE
  satelliteNumber : Int
  toc : Rat
  toe : Rat
  validityStart : Rat
  validityEnd : Rat
  health : Int
deriving DecidableEq

/-- The `RinexHeader` dataclass (the fields the parser populates). -/
structure RinexHeaderQ where
  version : RinexVersionE
  fileType : String
  satelliteSystem : SatelliteSystemE
  program : String
  runBy : String
  date : String
  leapSeconds : Int
deriving DecidableEq

/-- `datetime(y, mo, d, h, mi, se)` construction: validates field ranges
(raising `ValueError`, i.e. `Option.none`, outside them) and otherwise
yields the instant. -/
def mkDatetimeChecked (y mo d h mi se : Int) : Option Rat :=
  if 1 ≤ y ∧ y ≤ 9999 ∧ 1 ≤ mo ∧ mo ≤ 12 ∧ 1 ≤ d ∧ d ≤ daysInMonth y mo
      ∧ 0 ≤ h ∧ h ≤ 23 ∧ 0 ≤ mi ∧ mi ≤ 59 ∧ 0 ≤ se ∧ se ≤ 59 then
    Option.some (dtQ y mo d h mi (se : Rat))
  else Option.none

/-- The v3 record satellite-system character map (`sys_map.get` with the
header system as default). -/
def sysMapChar (c : Char) (dflt : SatelliteSystemE) : SatelliteSystemE :=
  if c = 'G' then SatelliteSystemE.GPS
  else if c = 'R' then SatelliteSystemE.GLONASS
  else if c = 'E' then SatelliteSystemE.GALILEO
  else if c = 'C' then SatelliteSystemE.BEIDOU
  else if c = 'J' then SatelliteSystemE.QZSS
  else if c = 'I' then SatelliteSystemE.IRNSS
  else if c = 'S' then SatelliteSystemE.SBAS
  else dflt

/-- `RinexParser._parse_v2_nav_record`: any exception inside the `try`
body yields `None`. -/
def parseV2NavRecord (hdrSys : SatelliteSystemE) (recordLines : List String) :
    Option EphemerisRecordQ :=
  if recordLines.length < 8 then Option.none
  else
    match recordLines with
    | [] => Option.none
    | firstLine :: _ => do
        let satNum ← pyInt (pySlice firstLine 0 2)
        let year2 ← pyInt (pySlice firstLine 3 5)
        let year := if year2 < 80 then year2 + 2000 else year2 + 1900
        let month ← pyInt (pySlice firstLine 6 8)
        let day ← pyInt (pySlice firstLine 9 11)
        let hour ← pyInt (pySlice firstLine 12 14)
        let minute ← pyInt (pySlice firstLine 15 17)
        let second ← pyFloat (pySlice firstLine 18 22)
        let toc ← mkDatetimeChecked year month day hour minute (truncQ second)
        Option.some
          { satelliteSystem := hdrSys
          , satelliteNumber := satNum
          , toc := toc
          , toe := toc
          , validityStart := toc - 2 * 3600
          , validityEnd := toc + 4 * 3600
          , health := 0 }

/-- `RinexParser._parse_v3_nav_record`: any exception inside the `try`
body yields `None`. -/
def parseV3NavRecord (hdrSys : SatelliteSystemE) (recordLines : List String) :
    Option EphemerisRecordQ :=
  if recordLines.length < 8 then Option.none
  else
    match recordLines with
    | [] => Option.none
    | firstLine :: _ => do
        let satId := pyStrip (pySlice firstLine 0 3)
        let sysNum ←
          (if 2 ≤ satId.data.length then
            (pyInt ⟨satId.data.drop 1⟩).map
              (fun num => (sysMapChar (satId.data.headD ' ') hdrSys, num))
          else
            (pyInt satId).map (fun num => (hdrSys, num)))
        let year ← pyInt (pySlice firstLine 4 8)
        let month ← pyInt (pySlice firstLine 9 11)
        let day ← pyInt (pySlice firstLine 12 14)
        let hour ← pyInt (pySlice firstLine 15 17)
        let minute ← pyInt (pySlice firstLine 18 20)
        let second ← pyFloat (pySlice firstLine 21 23)
        let toc ← mkDatetimeChecked year month day hour minute (truncQ second)
        Option.some
          { satelliteSystem := sysNum.1
          , satelliteNumber := sysNum.2
          , toc := toc
          , toe := toc
          , validityStart := toc - 2 * 3600
          , validityEnd := toc + 4 * 3600
          , health := 0 }

/-- The `_parse_navigation_data` loop.  The fuel counter equals the
initial line count; each step consumes at least one line, so fuel never
runs out before the lines do.  A non-empty line attempts a record from
the next 8 lines (failed records append nothing) and advances by 8
(success and failure alike: record-level exceptions are caught within
the record parser). -/
def navGo : Nat → RinexVersionE → SatelliteSystemE → List String →
    List EphemerisRecordQ
  | 0, _, _, _ => []
  | Nat.succ fuel, ver, hsys, ls =>
      match ls with
      | [] => []
      | l :: rest =>
          if pyStrip l = "" then navGo fuel ver hsys rest
          else
            let recOpt :=
              if ver = RinexVersionE.V2 then parseV2NavRecord hsys (ls.take 8)
              else parseV3NavRecord hsys (ls.take 8)
            recOpt.toList ++ navGo fuel ver hsys (ls.drop 8)

/-- `RinexParser._parse_navigation_data`. -/
def parseNavigationData (ver : RinexVersionE) (hsys : SatelliteSystemE)
    (lines : List String) : List EphemerisRecordQ :=
  navGo lines.length ver hsys lines

/-- `RinexParser._calculate_validity_range`: `None` when there are no
records, otherwise `(min validity_start, max validity_end)`. -/
def calcValidityRange (records : List EphemerisRecordQ) :
    Option (Rat × Rat) :=
  match records with
  | [] => Option.none
  | r :: rs =>
      Option.some
        (rs.foldl (fun acc x => min acc x.validityStart) r.validityStart,
         rs.foldl (fun acc x => max acc x.validityEnd) r.validityEnd)

/-- Accumulator for `_parse_header` (the `header_data` dict). -/
structure HeaderAcc where
  version : Option RinexVersionE
  fileType : Option String
  satSystem : Option SatelliteSystemE
  program : Option String
  runBy : Option String
  date : Option String
  leapSeconds : Option Int

/-- The empty `header_data` dict. -/
def emptyHeaderAcc : HeaderAcc :=
  ⟨Option.none, Option.none, Option.none, Option.none, Option.none,
   Option.none, Option.none⟩

/-- The `_parse_header` scan: walks lines, accumulating header fields,
stopping after an `END OF HEADER` line (returning its successor index).
If no such line occurs the returned data-start index stays 0, exactly as
in the source (`line_idx` is initialized to 0). -/
def headerScan : Nat → List String → HeaderAcc → HeaderAcc × Nat
  | _, [], acc => (acc, 0)
  | i, l :: rest, acc =>
      if containsSub "END OF HEADER" l then (acc, i + 1)
      else if containsSub "RINEX VERSION / TYPE" l then
        let versionStr := pyStrip (pySlice l 0 9)
        let ft := pyStrip (pySlice l 20 21)
        let satSys := pyStrip (pySlice l 40 41)
        let v :=
          if pyStartsWith versionStr "2" then RinexVersionE.V2
          else if pyStartsWith versionStr "3" then RinexVersionE.V3
          else if pyStartsWith versionStr "4" then RinexVersionE.V4
          else RinexVersionE.V3
        let ss :=
          if satSys = "G" ∨ satSys = "" then SatelliteSystemE.GPS
          else if satSys = "R" then SatelliteSystemE.GLONASS
          else if satSys = "E" then SatelliteSystemE.GALILEO
          else if satSys = "C" then SatelliteSystemE.BEIDOU
          else SatelliteSystemE.GPS
        headerScan (i + 1) rest
          { acc with version := Option.some v, fileType := Option.some ft,
                     satSystem := Option.some ss }
      else if containsSub "PGM / RUN BY / DATE" l then
        headerScan (i + 1) rest
          { acc with program := Option.some (pyStrip (pySlice l 0 20)),
                     runBy := Option.some (pyStrip (pySlice l 20 40)),
                     date := Option.some (pyStrip (pySlice l 40 60)) }
      else if containsSub "LEAP SECONDS" l then
        let lsv := match pyInt (pySlice l 0 6) with
          | Option.some n => n
          | Option.none => 18
        headerScan (i + 1) rest { acc with leapSeconds := Option.some lsv }
      else headerScan (i + 1) rest acc

/-- `RinexParser._parse_header`: returns the header object (defaults
filled in) and the data-start line index. -/
def parseHeaderQ (lines : List String) : RinexHeaderQ × Nat :=
  let ai := headerScan 0 lines emptyHeaderAcc
  ({ version := ai.1.version.getD RinexVersionE.V3
    , fileType := ai.1.fileType.getD "N"
    , satelliteSystem := ai.1.satSystem.getD SatelliteSystemE.GPS
    , program := ai.1.program.getD "Unknown"
    , runBy := ai.1.runBy.getD "Unknown"
    , date := ai.1.date.getD "Unknown"
    , leapSeconds := ai.1.leapSeconds.getD 18 }, ai.2)

/-- State of a path on the modeled filesystem: missing, present but
unreadable (`open` raises `OSError` with a message), or readable with
content lines. -/
inductive FileState
  | absent
  | unreadable (msg : String)
  | readable (lines : List String)

/-- The `RinexParseError` exception with its message. -/
structure RinexParseErrorQ where
  msg : String
deriving DecidableEq

/-- The parts of the `parse_file` result dict that carry parsed state
(`ephemeris_count`, `satellite_count` etc. are derived from `records`). -/
structure RinexParseResultQ where
  header : RinexHeaderQ
  records : List EphemerisRecordQ
  validityRange : Option (Rat × Rat)
deriving DecidableEq

/-- `RinexParser.parse_file`: a missing path raises
`RinexParseError("File not found: ...")` before the `try` block; inside
the `try` block, a failing `open` (or any other exception) is caught and
re-raised as `RinexParseError("Failed to parse RINEX file: ...")`
wrapping the cause; a readable file is parsed (header, then navigation
records when the file type starts with `N`, then the validity range). -/
def parseFileQ (fs : String → FileState) (path : String) :
    Except RinexParseErrorQ RinexParseResultQ :=
  match fs path with
  | FileState.absent => Except.error ⟨"File not found: " ++ path⟩
  | FileState.unreadable msg =>
      Except.error ⟨"Failed to parse RINEX file: " ++ msg⟩
  | FileState.readable lines =>
      let hi := parseHeaderQ lines
      let records :=
        if pyStartsWith hi.1.fileType "N" then
          parseNavigationData hi.1.version hi.1.satelliteSystem
            (lines.drop hi.2)
        else []
      Except.ok
        { header := hi.1
        , records := records
        , validityRange := calcValidityRange records }

/-- `RinexParser.quick_parse_validity` (and its alias
`get_ephemeris_validity_range`): runs `parse_file` and returns its
validity range, converting every failure into `None`. -/
def quickParseValidity (fs : String → FileState) (path : String) :
    Option (Rat × Rat) :=
  match parseFileQ fs path with
  | Except.ok r => r.validityRange
  | Except.error _ => Option.none

/-- `get_ephemeris_validity_range` delegates to `quick_parse_validity`. -/
def getEphemerisValidityRange (fs : String → FileState) (path : String) :
    Option (Rat × Rat) :=
  quickParseValidity fs path

/-- A filesystem with a single readable navigation file whose only line
is an `END OF HEADER` marker (so the parse succeeds with zero records). -/
def fsHeaderOnly : String → FileState := fun p =>
  if p = "ok.25n" then FileState.readable ["stub END OF HEADER"]
  else FileState.absent

/-! ## Configuration data model (src/core/config/models.py)

The source (de)serializer walks `__dataclass_fields__` reflectively and
stores arbitrary Python values in dataclass slots.  The embedding
therefore uses a dynamic value type `DynVal` for runtime values, a
per-class field table `dcFields` playing the role of
`__dataclass_fields__` (declared field order, declared type shape, and
declared default), and generic conversion functions transcribed from
`GNSSSignalSimConfig.to_dict` / `from_dict`.  A dataclass instance is
`DynVal.vDc t vs` with `vs` aligned positionally with `dcFields t`. -/

/-- The enum classes of the source. -/
inductive EnumTy
  | timeType
  | positionType
  | velocityType
  | trajectoryType
  | ephemerisType
  | outputType
  | outputFormat
  | constellationType
deriving DecidableEq

/-- The wire values of each enum, in declaration order. -/
def enumValues : EnumTy → List String
  | EnumTy.timeType => ["UTC", "GPS", "GLONASS", "BDS", "Galileo"]
  | EnumTy.positionType => ["LLA", "ECEF"]
  | EnumTy.velocityType => ["SCU", "ENU", "ECEF"]
  | EnumTy.trajectoryType =>
      ["Const", "ConstAcc", "VerticalAcc", "Jerk", "HorizontalTurn"]
  | EnumTy.ephemerisType => ["RINEX", "YUMA", "XML"]
  | EnumTy.outputType => ["IFdata", "position", "observation"]
  | EnumTy.outputFormat =>
      ["IQ8", "IQ4", "RINEX3", "KML", "NMEA0183", "ECEF", "LLA"]
  | EnumTy.constellationType =>
      ["GPS", "BDS", "Galileo", "GLONASS", "QZSS", "IRNSS"]

/-- The dataclasses of the configuration model. -/
inductive DCType
  | timeC
  | positionC
  | velocityC
  | trajSegC
  | trajC
  | ephC
  | sysSelC
  | satMaskC
  | outCfgC
  | powerC
  | sigPowValC
  | sigPowC
  | sigPowCfgC
  | almanacC
  | outSetC
  | rootC
deriving DecidableEq

/-- A Python runtime value as handled by the (de)serializer: `None`,
scalars, enum members (identified by their enum class and wire value),
lists, string-keyed dicts, and dataclass instances. -/
inductive DynVal
  | vNone
  | vBool (b : Bool)
  | vInt (n : Int)
  | vRat (q : Rat)
  | vStr (s : String)
  | vEnum (t : EnumTy) (v : String)
  | vList (xs : List DynVal)
  | vDict (kvs : List (String × DynVal))
  | vDc (t : DCType) (fields : List DynVal)

/-- Shape of a declared field type, carrying exactly the three attributes
`from_dict` dispatches on: `__dataclass_fields__` (which dataclass),
`__members__` (which enum), and `__args__` (whether the first type
argument is a dataclass — `List[T]`, `Optional[T]` and
`Union[int, List[int]]` all carry `__args__`). -/
structure FieldInfo where
  dcT : Option DCType
  enumT : Option EnumTy
  argDC : Option (Option DCType)

/-- A plain scalar annotation (`str`, `float`, `int`, `bool`). -/
def fiPlain : FieldInfo := ⟨Option.none, Option.none, Option.none⟩

/-- `Optional[int]` / `Optional[float]` / `Union[int, List[int]]`: carries
`__args__` whose head is not a dataclass. -/
def fiOpt : FieldInfo := ⟨Option.none, Option.none, Option.some Option.none⟩

/-- An enum annotation. -/
def fiEnum (e : EnumTy) : FieldInfo := ⟨Option.none, Option.some e, Option.none⟩

/-- A nested dataclass annotation. -/
def fiDC (t : DCType) : FieldInfo := ⟨Option.some t, Option.none, Option.none⟩

/-- `List[T]` for a dataclass `T`. -/
def fiListDC (t : DCType) : FieldInfo :=
  ⟨Option.none, Option.none, Option.some (Option.some t)⟩

/-- One entry of `__dataclass_fields__`: name, type shape, and declared
default (`Option.none` for a required field). -/
structure FieldDecl where
  name : String
  info : FieldInfo
  dflt : Option DynVal

/-- Default `TimeConfig()`. -/
def defTimeConfigV : DynVal :=
  DynVal.vDc DCType.timeC
    [DynVal.vEnum EnumTy.timeType "UTC", DynVal.vNone, DynVal.vNone,
     DynVal.vNone, DynVal.vNone, DynVal.vNone, DynVal.vNone, DynVal.vNone,
     DynVal.vNone]

/-- Default `PositionConfig()`. -/
def defPositionConfigV : DynVal :=
  DynVal.vDc DCType.positionC
    [DynVal.vEnum EnumTy.positionType "LLA", DynVal.vStr "d", DynVal.vRat 0,
     DynVal.vRat 0, DynVal.vRat 0, DynVal.vNone, DynVal.vNone, DynVal.vNone]

/-- Default `VelocityConfig()`. -/
def defVelocityConfigV : DynVal :=
  DynVal.vDc DCType.velocityC
    [DynVal.vEnum EnumTy.velocityType "SCU", DynVal.vRat 0, DynVal.vRat 0,
     DynVal.vRat 0, DynVal.vNone, DynVal.vNone, DynVal.vNone, DynVal.vNone,
     DynVal.vNone, DynVal.vStr "mps", DynVal.vStr "degree", DynVal.vStr "mps",
     DynVal.vStr "mps", DynVal.vStr "mps", DynVal.vStr "mps", DynVal.vStr "mps",
     DynVal.vStr "mps"]

/-- Default `TrajectoryConfig()`. -/
def defTrajectoryConfigV : DynVal :=
  DynVal.vDc DCType.trajC
    [DynVal.vStr "Default Trajectory", defPositionConfigV, defVelocityConfigV,
     DynVal.vList []]

/-- Default `OutputConfig()`. -/
def defOutputConfigV : DynVal :=
  DynVal.vDc DCType.outCfgC [DynVal.vRat 5, DynVal.vList []]

/-- Default `PowerConfig()`. -/
def defPowerConfigV : DynVal :=
  DynVal.vDc DCType.powerC [DynVal.vStr "dBHz", DynVal.vRat 45]

/-- Default `SignalPowerConfig()`. -/
def defSignalPowerConfigV : DynVal :=
  DynVal.vDc DCType.sigPowCfgC
    [DynVal.vRat (-174), defPowerConfigV, DynVal.vBool false, DynVal.vList []]

/-- Default `OutputSettings()`. -/
def defOutputSettingsV : DynVal :=
  DynVal.vDc DCType.outSetC
    [DynVal.vEnum EnumTy.outputType "IFdata",
     DynVal.vEnum EnumTy.outputFormat "IQ8", DynVal.vRat 20,
     DynVal.vRat (1575.42 : Rat), DynVal.vRat 1, DynVal.vStr "output.bin",
     defOutputConfigV, DynVal.vList []]

/-- `__dataclass_fields__` of each dataclass, in declaration order. -/
def dcFields : DCType → List FieldDecl
  | DCType.timeC =>
      [⟨"type", fiEnum EnumTy.timeType,
          Option.some (DynVal.vEnum EnumTy.timeType "UTC")⟩,
       ⟨"year", fiOpt, Option.some DynVal.vNone⟩,
       ⟨"month", fiOpt, Option.some DynVal.vNone⟩,
       ⟨"day", fiOpt, Option.some DynVal.vNone⟩,
       ⟨"hour", fiOpt, Option.some DynVal.vNone⟩,
       ⟨"minute", fiOpt, Option.some DynVal.vNone⟩,
       ⟨"second", fiOpt, Option.some DynVal.vNone⟩,
       ⟨"week", fiOpt, Option.some DynVal.vNone⟩,
       ⟨"leap_year", fiOpt, Option.some DynVal.vNone⟩]
  | DCType.positionC =>
      [⟨"type", fiEnum EnumTy.positionType,
          Option.some (DynVal.vEnum EnumTy.positionType "LLA")⟩,
       ⟨"format", fiPlain, Option.some (DynVal.vStr "d")⟩,
       ⟨"longitude", fiPlain, Option.some (DynVal.vRat 0)⟩,
       ⟨"latitude", fiPlain, Option.some (DynVal.vRat 0)⟩,
       ⟨"altitude", fiPlain, Option.some (DynVal.vRat 0)⟩,
       ⟨"x", fiOpt, Option.some DynVal.vNone⟩,
       ⟨"y", fiOpt, Option.some DynVal.vNone⟩,
       ⟨"z", fiOpt, Option.some DynVal.vNone⟩]
  | DCType.velocityC =>
      [⟨"type", fiEnum EnumTy.velocityType,
          Option.some (DynVal.vEnum EnumTy.velocityType "SCU")⟩,
       ⟨"speed", fiPlain, Option.some (DynVal.vRat 0)⟩,
       ⟨"course", fiPlain, Option.some (DynVal.vRat 0)⟩,
       ⟨"up", fiPlain, Option.some (DynVal.vRat 0)⟩,
       ⟨"east", fiOpt, Option.some DynVal.vNone⟩,
       ⟨"north", fiOpt, Option.some DynVal.vNone⟩,
       ⟨"x", fiOpt, Option.some DynVal.vNone⟩,
       ⟨"y", fiOpt, Option.some DynVal.vNone⟩,
       ⟨"z", fiOpt, Option.some DynVal.vNone⟩,
       ⟨"speed_unit", fiPlain, Option.some (DynVal.vStr "mps")⟩,
       ⟨"angle_unit", fiPlain, Option.some (DynVal.vStr "degree")⟩,
       ⟨"east_unit", fiPlain, Option.some (DynVal.vStr "mps")⟩,
       ⟨"north_unit", fiPlain, Option.some (DynVal.vStr "mps")⟩,
       ⟨"up_unit", fiPlain, Option.some (DynVal.vStr "mps")⟩,
       ⟨"x_unit", fiPlain, Option.some (DynVal.vStr "mps")⟩,
       ⟨"y_unit", fiPlain, Option.some (DynVal.vStr "mps")⟩,
       ⟨"z_unit", fiPlain, Option.some (DynVal.vStr "mps")⟩]
  | DCType.trajSegC =>
      [⟨"type", fiEnum EnumTy.trajectoryType,
          Option.some (DynVal.vEnum EnumTy.trajectoryType "Const")⟩,
       ⟨"time", fiPlain, Option.some (DynVal.vRat 1)⟩,
       ⟨"acceleration", fiOpt, Option.some DynVal.vNone⟩,
       ⟨"speed", fiOpt, Option.some DynVal.vNone⟩,
       ⟨"rate", fiOpt, Option.some DynVal.vNone⟩,
       ⟨"angle", fiOpt, Option.some DynVal.vNone⟩,
       ⟨"radius", fiOpt, Option.some DynVal.vNone⟩]
  | DCType.trajC =>
      [⟨"name", fiPlain, Option.some (DynVal.vStr "Default Trajectory")⟩,
       ⟨"init_position", fiDC DCType.positionC,
          Option.some defPositionConfigV⟩,
       ⟨"init_velocity", fiDC DCType.velocityC,
          Option.some defVelocityConfigV⟩,
       ⟨"trajectory_list", fiListDC DCType.trajSegC,
          Option.some (DynVal.vList [])⟩]
  | DCType.ephC =>
      [⟨"type", fiEnum EnumTy.ephemerisType,
          Option.some (DynVal.vEnum EnumTy.ephemerisType "RINEX")⟩,
       ⟨"name", fiPlain, Option.some (DynVal.vStr "")⟩,
       ⟨"include", fiPlain, Option.some (DynVal.vBool true)⟩]
  | DCType.sysSelC =>
      [⟨"system", fiEnum EnumTy.constellationType, Option.none⟩,
       ⟨"signal", fiPlain, Option.none⟩,
       ⟨"enable", fiPlain, Option.some (DynVal.vBool true)⟩]
  | DCType.satMaskC =>
      [⟨"system", fiEnum EnumTy.constellationType, Option.none⟩,
       ⟨"svid", fiOpt, Option.none⟩]
  | DCType.outCfgC =>
      [⟨"elevation_mask", fiPlain, Option.some (DynVal.vRat 5)⟩,
       ⟨"mask_out", fiListDC DCType.satMaskC, Option.some (DynVal.vList [])⟩]
  | DCType.powerC =>
      [⟨"unit", fiPlain, Option.some (DynVal.vStr "dBHz")⟩,
       ⟨"value", fiPlain, Option.some (DynVal.vRat 45)⟩]
  | DCType.sigPowValC =>
      [⟨"time", fiPlain, Option.none⟩,
       ⟨"unit", fiPlain, Option.none⟩,
       ⟨"value", fiPlain, Option.none⟩]
  | DCType.sigPowC =>
      [⟨"system", fiEnum EnumTy.constellationType, Option.none⟩,
       ⟨"svid", fiOpt, Option.none⟩,
       ⟨"power_value", fiListDC DCType.sigPowValC,
          Option.some (DynVal.vList [])⟩]
  | DCType.sigPowCfgC =>
      [⟨"noise_floor", fiPlain, Option.some (DynVal.vRat (-174))⟩,
       ⟨"init_power", fiDC DCType.powerC, Option.some defPowerConfigV⟩,
       ⟨"elevation_adjust", fiPlain, Option.some (DynVal.vBool false)⟩,
       ⟨"signal_power", fiListDC DCType.sigPowC,
          Option.some (DynVal.vList [])⟩]
  | DCType.almanacC =>
      [⟨"system", fiEnum EnumTy.constellationType, Option.none⟩,
       ⟨"name", fiPlain, Option.none⟩]
  | DCType.outSetC =>
      [⟨"type", fiEnum EnumTy.outputType,
          Option.some (DynVal.vEnum EnumTy.outputType "IFdata")⟩,
       ⟨"format", fiEnum EnumTy.outputFormat,
          Option.some (DynVal.vEnum EnumTy.outputFormat "IQ8")⟩,
       ⟨"sample_freq", fiPlain, Option.some (DynVal.vRat 20)⟩,
       ⟨"center_freq", fiPlain, Option.some (DynVal.vRat (1575.42 : Rat))⟩,
       ⟨"interval", fiPlain, Option.some (DynVal.vRat 1)⟩,
       ⟨"name", fiPlain, Option.some (DynVal.vStr "output.bin")⟩,
       ⟨"config", fiDC DCType.outCfgC, Option.some defOutputConfigV⟩,
       ⟨"system_select", fiListDC DCType.sysSelC,
          Option.some (DynVal.vList [])⟩]
  | DCType.rootC =>
      [⟨"version", fiPlain, Option.some (DynVal.vRat 1)⟩,
       ⟨"description", fiPlain,
          Option.some (DynVal.vStr "GNSSSignalSim Configuration")⟩,
       ⟨"comment", fiPlain, Option.some (DynVal.vStr "")⟩,
       ⟨"time", fiDC DCType.timeC, Option.some defTimeConfigV⟩,
       ⟨"trajectory", fiDC DCType.trajC, Option.some defTrajectoryConfigV⟩,
       ⟨"ephemeris", fiListDC DCType.ephC, Option.some (DynVal.vList [])⟩,
       ⟨"output", fiDC DCType.outSetC, Option.some defOutputSettingsV⟩,
       ⟨"power", fiDC DCType.sigPowCfgC, Option.some defSignalPowerConfigV⟩,
       ⟨"almanac", fiListDC DCType.almanacC, Option.some (DynVal.vList [])⟩]

/-! ## Key-name conversions (`to_camel_case` / `to_snake_case`) -/

/-- `str.split("_")` accumulator. -/
def pySplitUSCore (cur : List Char) : List Char → List (List Char)
  | [] => [cur.reverse]
  | c :: rest =>
      if c = '_' then cur.reverse :: pySplitUSCore [] rest
      else pySplitUSCore (c :: cur) rest

/-- Python `s.split("_")` (never returns an empty list). -/
def pySplitUS (l : List Char) : List (List Char) := pySplitUSCore [] l

/-- Python `str.title()` walker: a letter is uppercased after a non-cased
character and lowercased otherwise (ASCII letters are the cased
characters occurring in field names). -/
def pyTitleGo (prevCased : Bool) : List Char → List Char
  | [] => []
  | c :: rest =>
      if c.isAlpha then
        (if prevCased then c.toLower else c.toUpper) :: pyTitleGo true rest
      else c :: pyTitleGo false rest

/-- Python `str.title()`. -/
def pyTitleL (l : List Char) : List Char := pyTitleGo false l

/-- `to_dict.to_camel_case`: split on underscores, keep the first
component and title-case the rest. -/
def toCamelCaseL (l : List Char) : List Char :=
  match pySplitUS l with
  | [] => []
  | w :: ws => w ++ (ws.map pyTitleL).flatten

/-- `to_dict.to_camel_case` on strings. -/
def toCamelCase (s : String) : String := ⟨toCamelCaseL s.data⟩

/-- `from_dict.to_snake_case` tail: an uppercase letter becomes an
underscore plus its lowercase form. -/
def toSnakeGo : List Char → List Char
  | [] => []
  | c :: rest =>
      if c.isUpper then '_' :: c.toLower :: toSnakeGo rest
      else c :: toSnakeGo rest

/-- `from_dict.to_snake_case`: empty stays empty, else lowercase the head
and expand the uppercase letters of the tail. -/
def toSnakeCaseL : List Char → List Char
  | [] => []
  | c :: rest => c.toLower :: toSnakeGo rest

/-- `from_dict.to_snake_case` on strings. -/
def toSnakeCase (s : String) : String := ⟨toSnakeCaseL s.data⟩

/-! ## Serialization (`GNSSSignalSimConfig.to_dict`) -/

/-- `to_dict.convert_enum`: an enum member serializes to its wire value,
everything else passes through. -/
def convertEnum : DynVal → DynVal
  | DynVal.vEnum _ v => DynVal.vStr v
  | v => v

/-- Python truthiness (used by the ephemeris `include` filter). -/
def pyTruthy : DynVal → Bool
  | DynVal.vNone => false
  | DynVal.vBool b => b
  | DynVal.vInt n => decide (n ≠ 0)
  | DynVal.vRat q => decide (q ≠ 0)
  | DynVal.vStr s => decide (s ≠ "")
  | DynVal.vEnum _ _ => true
  | DynVal.vList xs => !xs.isEmpty
  | DynVal.vDict kvs => !kvs.isEmpty
  | DynVal.vDc _ _ => true

/-- Positional `getattr` on a dataclass instance. -/
def getFieldValGo : List FieldDecl → List DynVal → String → DynVal
  | fd :: fds, v :: vs, nm =>
      if fd.name = nm then v else getFieldValGo fds vs nm
  | _, _, _ => DynVal.vNone

/-- `getattr(obj, nm)` for a declared field of dataclass `t`. -/
def getFieldVal (t : DCType) (vals : List DynVal) (nm : String) : DynVal :=
  getFieldValGo (dcFields t) vals nm

/-- Field lookup in a field table. -/
def lookupFieldGo : List FieldDecl → String → Option FieldInfo
  | [], _ => Option.none
  | fd :: fds, nm => if fd.name = nm then Option.some fd.info
      else lookupFieldGo fds nm

/-- `snake_key in field_types` plus the type lookup of `from_dict`. -/
def lookupField (t : DCType) (nm : String) : Option FieldInfo :=
  lookupFieldGo (dcFields t) nm

/-- `getattr(eph, 'include', True)`. -/
def getattrInclude (x : DynVal) : DynVal :=
  match x with
  | DynVal.vDc t vs =>
      (match lookupField t "include" with
       | Option.some _ => getFieldVal t vs "include"
       | Option.none => DynVal.vBool true)
  | _ => DynVal.vBool true

/-- The per-constellation default used by the `SystemSelect.signal`
repair (`if/elif` chain of the source, with `L1CA` as final fallback). -/
def defaultSignalForSystem (sv : DynVal) : String :=
  match sv with
  | DynVal.vEnum EnumTy.constellationType s =>
      if s = "GPS" then "L1CA"
      else if s = "BDS" then "B1C"
      else if s = "Galileo" then "E1"
      else if s = "GLONASS" then "G1"
      else "L1CA"
  | _ => "L1CA"

/-- Test for `value is None or value == ""` on the signal field. -/
def isNoneOrEmptyStr : DynVal → Bool
  | DynVal.vNone => true
  | DynVal.vStr s => s == ""
  | _ => false

/-- `value is None`. -/
def isNoneV : DynVal → Bool
  | DynVal.vNone => true
  | _ => false

/-- `output_type in [OutputType.POSITION, OutputType.OBSERVATION]`. -/
def isOutputPosObs : DynVal → Bool
  | DynVal.vEnum EnumTy.outputType s => s == "position" || s == "observation"
  | _ => false

/-- `output_type == OutputType.IF_DATA`. -/
def isOutputIF : DynVal → Bool
  | DynVal.vEnum EnumTy.outputType s => s == "IFdata"
  | _ => false

/-- The `VelocityConfig` skip sets, keyed on the `type` sibling. -/
def velSkip (tv : DynVal) (nm : String) : Bool :=
  match tv with
  | DynVal.vEnum EnumTy.velocityType s =>
      if s == "SCU" then
        ["east", "north", "x", "y", "z", "east_unit", "north_unit",
         "up_unit", "x_unit", "y_unit", "z_unit"].contains nm
      else if s == "ENU" then
        ["speed", "course", "x", "y", "z", "speed_unit", "angle_unit",
         "x_unit", "y_unit", "z_unit"].contains nm
      else if s == "ECEF" then
        ["speed", "course", "up", "east", "north", "speed_unit",
         "angle_unit", "east_unit", "north_unit", "up_unit"].contains nm
      else false
  | _ => false

/-- The `PositionConfig` skip sets, keyed on the `type` sibling. -/
def posSkip (tv : DynVal) (nm : String) : Bool :=
  match tv with
  | DynVal.vEnum EnumTy.positionType s =>
      if s == "LLA" then ["x", "y", "z"].contains nm
      else if s == "ECEF" then
        ["format", "longitude", "latitude", "altitude"].contains nm
      else false
  | _ => false

/-- Emission of one already-special-cased field value: lists serialize
element-wise, nested dataclasses recurse, scalars go through
`convert_enum`. -/
def serOne (recurse : DynVal → DynVal) (v : DynVal) : DynVal :=
  match v with
  | DynVal.vList xs => DynVal.vList (xs.map recurse)
  | DynVal.vDc t vs => recurse (DynVal.vDc t vs)
  | other => convertEnum other

/-- The field loop of `to_dict.convert_dataclass`, specialized over the
statically known field table; `recurse` is the recursive call at one
smaller recursion depth.  The special cases appear in source order:
signal repair, ephemeris `include` filter, `OutputSettings` pruning,
`EphemerisConfig.include` skip, `VelocityConfig` and `PositionConfig`
pruning, and the final `None` skip. -/
def serFieldsAux (recurse : DynVal → DynVal) (t : DCType)
    (obj : List DynVal) :
    List FieldDecl → List DynVal → List (String × DynVal)
  | [], _ => []
  | _ :: _, [] => []
  | fd :: fds, v :: vs =>
      let v1 :=
        if t = DCType.sysSelC ∧ fd.name = "signal"
            ∧ isNoneOrEmptyStr v = true then
          DynVal.vStr (defaultSignalForSystem (getFieldVal t obj "system"))
        else v
      let v2 :=
        if t = DCType.rootC ∧ fd.name = "ephemeris" then
          match v1 with
          | DynVal.vList xs =>
              DynVal.vList (xs.filter (fun e => pyTruthy (getattrInclude e)))
          | other => other
        else v1
      if t = DCType.outSetC ∧ fd.name = "interval"
          ∧ isOutputPosObs (getFieldVal t obj "type") = false then
        serFieldsAux recurse t obj fds vs
      else if t = DCType.outSetC
          ∧ (fd.name = "sample_freq" ∨ fd.name = "center_freq")
          ∧ isOutputIF (getFieldVal t obj "type") = false then
        serFieldsAux recurse t obj fds vs
      else if t = DCType.ephC ∧ fd.name = "include" then
        serFieldsAux recurse t obj fds vs
      else if t = DCType.velocityC
          ∧ velSkip (getFieldVal t obj "type") fd.name = true then
        serFieldsAux recurse t obj fds vs
      else if t = DCType.positionC
          ∧ posSkip (getFieldVal t obj "type") fd.name = true then
        serFieldsAux recurse t obj fds vs
      else if isNoneV v2 = true
          ∧ ¬(t = DCType.sysSelC ∧ fd.name = "signal") then
        serFieldsAux recurse t obj fds vs
      else
        (toCamelCase fd.name, serOne recurse v2)
          :: serFieldsAux recurse t obj fds vs

/-- `to_dict.convert_dataclass`, with a fuel counter standing for the
Python call stack (the configuration tree has small fixed depth, so any
fuel of at least that depth computes the function; the exported
`toDictDyn` uses 64). -/
def convertDataclassF : Nat → DynVal → DynVal
  | 0, v => v
  | Nat.succ fuel, DynVal.vDc t vs =>
      DynVal.vDict (serFieldsAux (convertDataclassF fuel) t vs (dcFields t) vs)
  | Nat.succ _, v => convertEnum v

/-- `GNSSSignalSimConfig.to_dict` on a dynamic configuration object. -/
def toDictDyn (c : DynVal) : DynVal := convertDataclassF 64 c

/-! ## Deserialization (`GNSSSignalSimConfig.from_dict`) -/

/-- The Python exceptions `from_dict` can raise: a dataclass constructor
missing a required argument (`TypeError`, carrying the first missing
field name), `.items()` on a non-mapping (`AttributeError`), and the
interpreter recursion limit. -/
inductive PyError
  | typeError (field : String)
  | attributeError (msg : String)
  | recursionError
deriving DecidableEq

/-- The legacy unit migration of `from_dict` (`m/s`, `km/h`, `deg`). -/
def legacyRemap (sk : String) (v : DynVal) : DynVal :=
  match v with
  | DynVal.vStr s =>
      if sk = "speed_unit" ∧ s = "m/s" then DynVal.vStr "mps"
      else if sk = "speed_unit" ∧ s = "km/h" then DynVal.vStr "kph"
      else if sk = "angle_unit" ∧ s = "deg" then DynVal.vStr "degree"
      else DynVal.vStr s
  | other => other

/-- Enum construction by value (`field_type(value)`); `Option.none` is the
`ValueError` case. -/
def enumOfValue (e : EnumTy) (s : String) : Option DynVal :=
  if (enumValues e).contains s then Option.some (DynVal.vEnum e s)
  else Option.none

/-- Element-wise conversion of a list value
(`[convert_to_dataclass(item, T) for item in value]`). -/
def mapConvAux (recurse : Option DCType → DynVal → Except PyError DynVal)
    (a : Option DCType) : List DynVal → Except PyError (List DynVal)
  | [] => Except.ok []
  | x :: xs => do
      let y ← recurse a x
      let ys ← mapConvAux recurse a xs
      Except.ok (y :: ys)

/-- The per-key dispatch of `from_dict.convert_to_dataclass`, in source
order: list with `__args__`, dict with dataclass target, enum with
string value (drift becomes `None`), else raw storage after the legacy
unit remap. -/
def convertFieldAux (recurse : Option DCType → DynVal → Except PyError DynVal)
    (info : FieldInfo) (sk : String) (v : DynVal) : Except PyError DynVal :=
  match v, info.argDC with
  | DynVal.vList xs, Option.some a => (mapConvAux recurse a xs).map DynVal.vList
  | _, _ =>
      match v, info.dcT with
      | DynVal.vDict kvs, Option.some t2 =>
          recurse (Option.some t2) (DynVal.vDict kvs)
      | _, _ =>
          match info.enumT, v with
          | Option.some e, DynVal.vStr s =>
              Except.ok ((enumOfValue e s).getD DynVal.vNone)
          | _, _ => Except.ok (legacyRemap sk v)

/-- Dict assignment `kwargs[k] = v`: replaces in place or appends. -/
def dictSet (kvs : List (String × DynVal)) (k : String) (v : DynVal) :
    List (String × DynVal) :=
  match kvs with
  | [] => [(k, v)]
  | (k0, v0) :: rest =>
      if k0 = k then (k, v) :: rest else (k0, v0) :: dictSet rest k v

/-- Dict lookup. -/
def lookupD (kvs : List (String × DynVal)) (k : String) : Option DynVal :=
  match kvs with
  | [] => Option.none
  | (k0, v0) :: rest => if k0 = k then Option.some v0 else lookupD rest k

/-- The `for key, value in data_dict.items()` loop building `kwargs`:
unknown keys are skipped, known keys convert their value and assign. -/
def buildKwargsAux (recurse : Option DCType → DynVal → Except PyError DynVal)
    (t : DCType) : List (String × DynVal) → List (String × DynVal) →
    Except PyError (List (String × DynVal))
  | [], acc => Except.ok acc
  | (k, v) :: rest, acc =>
      match lookupField t (toSnakeCase k) with
      | Option.none => buildKwargsAux recurse t rest acc
      | Option.some info => do
          let cv ← convertFieldAux recurse info (toSnakeCase k) v
          buildKwargsAux recurse t rest (dictSet acc (toSnakeCase k) cv)

/-- `dataclass_type(**kwargs)`: each declared field takes its kwargs
entry, else its declared default, else the constructor raises
`TypeError`. -/
def constructGo (kwargs : List (String × DynVal)) :
    List FieldDecl → Except PyError (List DynVal)
  | [] => Except.ok []
  | fd :: fds => do
      let v ←
        (match lookupD kwargs fd.name with
         | Option.some v => Except.ok v
         | Option.none =>
             match fd.dflt with
             | Option.some d => Except.ok d
             | Option.none => Except.error (PyError.typeError fd.name))
      let vs ← constructGo kwargs fds
      Except.ok (v :: vs)

/-- `dataclass_type(**kwargs)` producing the instance. -/
def constructDC (t : DCType) (kwargs : List (String × DynVal)) :
    Except PyError DynVal :=
  (constructGo kwargs (dcFields t)).map (DynVal.vDc t)

/-- `from_dict.convert_to_dataclass(data_dict, dataclass_type)` with a
fuel counter standing for the Python call stack (exhaustion is the
`RecursionError` of deep inputs).  A non-dataclass target returns the
value unchanged; a dataclass target requires a mapping. -/
def convertToDataclassF : Nat → Option DCType → DynVal →
    Except PyError DynVal
  | 0, _, _ => Except.error PyError.recursionError
  | Nat.succ fuel, target, d =>
      match target with
      | Option.none => Except.ok d
      | Option.some t =>
          match d with
          | DynVal.vDict kvs => do
              let kwargs ← buildKwargsAux (convertToDataclassF fuel) t kvs []
              constructDC t kwargs
          | _ => Except.error (PyError.attributeError "items")

/-- `GNSSSignalSimConfig.from_dict` on a dynamic mapping. -/
def fromDictDyn (d : DynVal) : Except PyError DynVal :=
  convertToDataclassF 64 (Option.some DCType.rootC) d

/-! ## Typed configuration values

A well-typed `Configuration` — fields holding exactly the values their
dataclass annotations declare — is the domain over which the round-trip
claims quantify.  `reify*` injects a typed value into the dynamic
representation the (de)serializer operates on. -/

/-- `TimeType`. -/
inductive TimeTypeT
  | UTC
  | GPS
  | GLONASS
  | BDS
  | GALILEO
deriving DecidableEq

/-- Wire value of a `TimeType` member. -/
def TimeTypeT.val : TimeTypeT → String
  | TimeTypeT.UTC => "UTC"
  | TimeTypeT.GPS => "GPS"
  | TimeTypeT.GLONASS => "GLONASS"
  | TimeTypeT.BDS => "BDS"
  | TimeTypeT.GALILEO => "Galileo"

/-- `PositionType`. -/
inductive PositionTypeT
  | LLA
  | ECEF
deriving DecidableEq

/-- Wire value of a `PositionType` member. -/
def PositionTypeT.val : PositionTypeT → String
  | PositionTypeT.LLA => "LLA"
  | PositionTypeT.ECEF => "ECEF"

/-- `VelocityType`. -/
inductive VelocityTypeT
  | SCU
  | ENU
  | ECEF
deriving DecidableEq

/-- Wire value of a `VelocityType` member. -/
def VelocityTypeT.val : VelocityTypeT → String
  | VelocityTypeT.SCU => "SCU"
  | VelocityTypeT.ENU => "ENU"
  | VelocityTypeT.ECEF => "ECEF"

/-- `TrajectoryType`. -/
inductive TrajectoryTypeT
  | CONST
  | CONST_ACC
  | VERTICAL_ACC
  | JERK
  | HORIZONTAL_TURN
deriving DecidableEq

/-- Wire value of a `TrajectoryType` member. -/
def TrajectoryTypeT.val : TrajectoryTypeT → String
  | TrajectoryTypeT.CONST => "Const"
  | TrajectoryTypeT.CONST_ACC => "ConstAcc"
  | TrajectoryTypeT.VERTICAL_ACC => "VerticalAcc"
  | TrajectoryTypeT.JERK => "Jerk"
  | TrajectoryTypeT.HORIZONTAL_TURN => "HorizontalTurn"

/-- `EphemerisType`. -/
inductive EphemerisTypeT
  | RINEX
  | YUMA
  | XML
deriving DecidableEq

/-- Wire value of an `EphemerisType` member. -/
def EphemerisTypeT.val : EphemerisTypeT → String
  | EphemerisTypeT.RINEX => "RINEX"
  | EphemerisTypeT.YUMA => "YUMA"
  | EphemerisTypeT.XML => "XML"

/-- `OutputType`. -/
inductive OutputTypeT
  | IF_DATA
  | POSITION
  | OBSERVATION
deriving DecidableEq

/-- Wire value of an `OutputType` member. -/
def OutputTypeT.val : OutputTypeT → String
  | OutputTypeT.IF_DATA => "IFdata"
  | OutputTypeT.POSITION => "position"
  | OutputTypeT.OBSERVATION => "observation"

/-- `OutputFormat`. -/
inductive OutputFormatT
  | IQ8
  | IQ4
  | RINEX3
  | KML
  | NMEA0183
  | ECEF
  | LLA
deriving DecidableEq

/-- Wire value of an `OutputFormat` member. -/
def OutputFormatT.val : OutputFormatT → String
  | OutputFormatT.IQ8 => "IQ8"
  | OutputFormatT.IQ4 => "IQ4"
  | OutputFormatT.RINEX3 => "RINEX3"
  | OutputFormatT.KML => "KML"
  | OutputFormatT.NMEA0183 => "NMEA0183"
  | OutputFormatT.ECEF => "ECEF"
  | OutputFormatT.LLA => "LLA"

/-- `ConstellationType`. -/
inductive ConstellationTypeT
  | GPS
  | BDS
  | GALILEO
  | GLONASS
  | QZSS
  | IRNSS
deriving DecidableEq

/-- Wire value of a `ConstellationType` member. -/
def ConstellationTypeT.val : ConstellationTypeT → String
  | ConstellationTypeT.GPS => "GPS"
  | ConstellationTypeT.BDS => "BDS"
  | ConstellationTypeT.GALILEO => "Galileo"
  | ConstellationTypeT.GLONASS => "GLONASS"
  | ConstellationTypeT.QZSS => "QZSS"
  | ConstellationTypeT.IRNSS => "IRNSS"

/-- `TimeConfig`. -/
structure TimeConfigT where
  type : TimeTypeT
  year : Option Int
  month : Option Int
  day : Option Int
  hour : Option Int
  minute : Option Int
  second : Option Rat
  week : Option Int
  leap_year : Option Int
deriving DecidableEq

/-- `PositionConfig`. -/
structure PositionConfigT where
  type : PositionTypeT
  format : String
  longitude : Rat
  latitude : Rat
  altitude : Rat
  x : Option Rat
  y : Option Rat
  z : Option Rat
deriving DecidableEq

/-- `VelocityConfig`. -/
structure VelocityConfigT where
  type : VelocityTypeT
  speed : Rat
  course : Rat
  up : Rat
  east : Option Rat
  north : Option Rat
  x : Option Rat
  y : Option Rat
  z : Option Rat
  speed_unit : String
  angle_unit : String
  east_unit : String
  north_unit : String
  up_unit : String
  x_unit : String
  y_unit : String
  z_unit : String
deriving DecidableEq

/-- `TrajectorySegment`. -/
structure TrajectorySegmentT where
  type : TrajectoryTypeT
  time : Rat
  acceleration : Option Rat
  speed : Option Rat
  rate : Option Rat
  angle : Option Rat
  radius : Option Rat
deriving DecidableEq

/-- `TrajectoryConfig`. -/
structure TrajectoryConfigT where
  name : String
  init_position : PositionConfigT
  init_velocity : VelocityConfigT
  trajectory_list : List TrajectorySegmentT
deriving DecidableEq

/-- `EphemerisConfig` (the source field `include` is a Lean keyword, so
the typed projection is named `includeFlag`; the dynamic layer keeps the
string key `include`). -/
structure EphemerisConfigT where
  type : EphemerisTypeT
  name : String
  includeFlag : Bool
deriving DecidableEq

/-- `SystemSelect`. -/
structure SystemSelectT where
  system : ConstellationTypeT
  signal : String
  enable : Bool
deriving DecidableEq

/-- `Union[int, List[int]]` for `svid`. -/
inductive SvidT
  | one (n : Int)
  | many (ns : List Int)
deriving DecidableEq

/-- `SatelliteMask`. -/
structure SatelliteMaskT where
  system : ConstellationTypeT
  svid : SvidT
deriving DecidableEq

/-- `OutputConfig`. -/
structure OutputConfigT where
  elevation_mask : Rat
  mask_out : List SatelliteMaskT
deriving DecidableEq

/-- `PowerConfig`. -/
structure PowerConfigT where
  unit : String
  value : Rat
deriving DecidableEq

/-- `SignalPowerValue`. -/
structure SignalPowerValueT where
  time : Rat
  unit : String
  value : Rat
deriving DecidableEq

/-- `SignalPower`. -/
structure SignalPowerT where
  system : ConstellationTypeT
  svid : SvidT
  power_value : List SignalPowerValueT
deriving DecidableEq

/-- `SignalPowerConfig`. -/
structure SignalPowerConfigT where
  noise_floor : Rat
  init_power : PowerConfigT
  elevation_adjust : Bool
  signal_power : List SignalPowerT
deriving DecidableEq

/-- `AlmanacConfig`. -/
structure AlmanacConfigT where
  system : ConstellationTypeT
  name : String
deriving DecidableEq

/-- `OutputSettings`. -/
structure OutputSettingsT where
  type : OutputTypeT
  format : OutputFormatT
  sample_freq : Rat
  center_freq : Rat
  interval : Rat
  name : String
  config : OutputConfigT
  system_select : List SystemSelectT
deriving DecidableEq

/-- `GNSSSignalSimConfig`. -/
structure GNSSSignalSimConfigT where
  version : Rat
  description : String
  comment : String
  time : TimeConfigT
  trajectory : TrajectoryConfigT
  ephemeris : List EphemerisConfigT
  output : OutputSettingsT
  power : SignalPowerConfigT
  almanac : List AlmanacConfigT
deriving DecidableEq

/-- Injection of an optional int field value. -/
def optIntV : Option Int → DynVal
  | Option.some n => DynVal.vInt n
  | Option.none => DynVal.vNone

/-- Injection of an optional float field value. -/
def optRatV : Option Rat → DynVal
  | Option.some q => DynVal.vRat q
  | Option.none => DynVal.vNone

/-- Injection of an `svid` value. -/
def svidV : SvidT → DynVal
  | SvidT.one n => DynVal.vInt n
  | SvidT.many ns => DynVal.vList (ns.map DynVal.vInt)

/-- Reify a `TimeConfig`. -/
def reifyTime (t : TimeConfigT) : DynVal :=
  DynVal.vDc DCType.timeC
    [DynVal.vEnum EnumTy.timeType t.type.val, optIntV t.year, optIntV t.month,
     optIntV t.day, optIntV t.hour, optIntV t.minute, optRatV t.second,
     optIntV t.week, optIntV t.leap_year]

/-- Reify a `PositionConfig`. -/
def reifyPosition (p : PositionConfigT) : DynVal :=
  DynVal.vDc DCType.positionC
    [DynVal.vEnum EnumTy.positionType p.type.val, DynVal.vStr p.format,
     DynVal.vRat p.longitude, DynVal.vRat p.latitude, DynVal.vRat p.altitude,
     optRatV p.x, optRatV p.y, optRatV p.z]

/-- Reify a `VelocityConfig`. -/
def reifyVelocity (v : VelocityConfigT) : DynVal :=
  DynVal.vDc DCType.velocityC
    [DynVal.vEnum EnumTy.velocityType v.type.val, DynVal.vRat v.speed,
     DynVal.vRat v.course, DynVal.vRat v.up, optRatV v.east, optRatV v.north,
     optRatV v.x, optRatV v.y, optRatV v.z, DynVal.vStr v.speed_unit,
     DynVal.vStr v.angle_unit, DynVal.vStr v.east_unit,
     DynVal.vStr v.north_unit, DynVal.vStr v.up_unit, DynVal.vStr v.x_unit,
     DynVal.vStr v.y_unit, DynVal.vStr v.z_unit]

/-- Reify a `TrajectorySegment`. -/
def reifySegment (s : TrajectorySegmentT) : DynVal :=
  DynVal.vDc DCType.trajSegC
    [DynVal.vEnum EnumTy.trajectoryType s.type.val, DynVal.vRat s.time,
     optRatV s.acceleration, optRatV s.speed, optRatV s.rate, optRatV s.angle,
     optRatV s.radius]

/-- Reify a `TrajectoryConfig`. -/
def reifyTrajectory (tr : TrajectoryConfigT) : DynVal :=
  DynVal.vDc DCType.trajC
    [DynVal.vStr tr.name, reifyPosition tr.init_position,
     reifyVelocity tr.init_velocity,
     DynVal.vList (tr.trajectory_list.map reifySegment)]

/-- Reify an `EphemerisConfig`. -/
def reifyEphemeris (e : EphemerisConfigT) : DynVal :=
  DynVal.vDc DCType.ephC
    [DynVal.vEnum EnumTy.ephemerisType e.type.val, DynVal.vStr e.name,
     DynVal.vBool e.includeFlag]

/-- Reify a `SystemSelect`. -/
def reifySystemSelect (s : SystemSelectT) : DynVal :=
  DynVal.vDc DCType.sysSelC
    [DynVal.vEnum EnumTy.constellationType s.system.val, DynVal.vStr s.signal,
     DynVal.vBool s.enable]

/-- Reify a `SatelliteMask`. -/
def reifySatelliteMask (m : SatelliteMaskT) : DynVal :=
  DynVal.vDc DCType.satMaskC
    [DynVal.vEnum EnumTy.constellationType m.system.val, svidV m.svid]

/-- Reify an `OutputConfig`. -/
def reifyOutputConfig (o : OutputConfigT) : DynVal :=
  DynVal.vDc DCType.outCfgC
    [DynVal.vRat o.elevation_mask,
     DynVal.vList (o.mask_out.map reifySatelliteMask)]

/-- Reify a `PowerConfig`. -/
def reifyPowerConfig (p : PowerConfigT) : DynVal :=
  DynVal.vDc DCType.powerC [DynVal.vStr p.unit, DynVal.vRat p.value]

/-- Reify a `SignalPowerValue`. -/
def reifySignalPowerValue (pv : SignalPowerValueT) : DynVal :=
  DynVal.vDc DCType.sigPowValC
    [DynVal.vRat pv.time, DynVal.vStr pv.unit, DynVal.vRat pv.value]

/-- Reify a `SignalPower`. -/
def reifySignalPower (sp : SignalPowerT) : DynVal :=
  DynVal.vDc DCType.sigPowC
    [DynVal.vEnum EnumTy.constellationType sp.system.val, svidV sp.svid,
     DynVal.vList (sp.power_value.map reifySignalPowerValue)]

/-- Reify a `SignalPowerConfig`. -/
def reifySignalPowerConfig (pc : SignalPowerConfigT) : DynVal :=
  DynVal.vDc DCType.sigPowCfgC
    [DynVal.vRat pc.noise_floor, reifyPowerConfig pc.init_power,
     DynVal.vBool pc.elevation_adjust,
     DynVal.vList (pc.signal_power.map reifySignalPower)]

/-- Reify an `AlmanacConfig`. -/
def reifyAlmanac (a : AlmanacConfigT) : DynVal :=
  DynVal.vDc DCType.almanacC
    [DynVal.vEnum EnumTy.constellationType a.system.val, DynVal.vStr a.name]

/-- Reify an `OutputSettings`. -/
def reifyOutputSettings (o : OutputSettingsT) : DynVal :=
  DynVal.vDc DCType.outSetC
    [DynVal.vEnum EnumTy.outputType o.type.val,
     DynVal.vEnum EnumTy.outputFormat o.format.val, DynVal.vRat o.sample_freq,
     DynVal.vRat o.center_freq, DynVal.vRat o.interval, DynVal.vStr o.name,
     reifyOutputConfig o.config,
     DynVal.vList (o.system_select.map reifySystemSelect)]

/-- Reify a complete `GNSSSignalSimConfig`. -/
def reifyConfig (c : GNSSSignalSimConfigT) : DynVal :=
  DynVal.vDc DCType.rootC
    [DynVal.vRat c.version, DynVal.vStr c.description, DynVal.vStr c.comment,
     reifyTime c.time, reifyTrajectory c.trajectory,
     DynVal.vList (c.ephemeris.map reifyEphemeris),
     reifyOutputSettings c.output, reifySignalPowerConfig c.power,
     DynVal.vList (c.almanac.map reifyAlmanac)]

/-! ## The spec-side restriction to active fields

`pruneToDefaults` is written from the words of the round-trip claim: the
fields pruned by the type-conditional rules come back as the model
defaults; fields active under the tags are kept. -/

/-- Modelled from the claim text: reset the `PositionConfig` fields that
are inactive under the position type to their declared defaults. -/
def prunePosition (p : PositionConfigT) : PositionConfigT :=
  match p.type with
  | PositionTypeT.LLA =>
      { p with x := Option.none, y := Option.none, z := Option.none }
  | PositionTypeT.ECEF =>
      { p with format := "d", longitude := 0, latitude := 0, altitude := 0 }

/-- Modelled from the claim text: reset the `VelocityConfig` fields that
are inactive under the velocity type to their declared defaults. -/
def pruneVelocity (v : VelocityConfigT) : VelocityConfigT :=
  match v.type with
  | VelocityTypeT.SCU =>
      { v with east := Option.none, north := Option.none, x := Option.none,
               y := Option.none, z := Option.none, east_unit := "mps",
               north_unit := "mps", up_unit := "mps", x_unit := "mps",
               y_unit := "mps", z_unit := "mps" }
  | VelocityTypeT.ENU =>
      { v with speed := 0, course := 0, x := Option.none, y := Option.none,
               z := Option.none, speed_unit := "mps", angle_unit := "degree",
               x_unit := "mps", y_unit := "mps", z_unit := "mps" }
  | VelocityTypeT.ECEF =>
      { v with speed := 0, course := 0, up := 0, east := Option.none,
               north := Option.none, speed_unit := "mps",
               angle_unit := "degree", east_unit := "mps",
               north_unit := "mps", up_unit := "mps" }

/-- Modelled from the claim text: reset the `OutputSettings` fields that
are inactive under the output type to their declared defaults. -/
def pruneOutput (o : OutputSettingsT) : OutputSettingsT :=
  match o.type with
  | OutputTypeT.IF_DATA => { o with interval := 1 }
  | OutputTypeT.POSITION =>
      { o with sample_freq := 20, center_freq := (1575.42 : Rat) }
  | OutputTypeT.OBSERVATION =>
      { o with sample_freq := 20, center_freq := (1575.42 : Rat) }

/-- Modelled from the claim text: the configuration restricted to the
fields active under its own tag values — inactive fields are reset to
defaults, and the ephemeris list keeps exactly its `include = true`
entries in order. -/
def pruneConfig (c : GNSSSignalSimConfigT) : GNSSSignalSimConfigT :=
  { c with
    trajectory :=
      { c.trajectory with
        init_position := prunePosition c.trajectory.init_position,
        init_velocity := pruneVelocity c.trajectory.init_velocity },
    ephemeris := c.ephemeris.filter (fun e => e.includeFlag),
    output := pruneOutput c.output }

/-! ## Serialized shapes of typed entities -/

/-- Dict entry of an optional field: present exactly when the value is. -/
def optKV (k : String) (o : Option DynVal) : List (String × DynVal) :=
  match o with
  | Option.some v => [(k, v)]
  | Option.none => []

/-! ## Named serialized shapes of the whole configuration tree -/

/-- Serialized shape of a `TimeConfig`. -/
def serTimeShape (t : TimeConfigT) : DynVal :=
  DynVal.vDict
    (("type", DynVal.vStr t.type.val)
      :: (optKV "year" (t.year.map DynVal.vInt)
        ++ optKV "month" (t.month.map DynVal.vInt)
        ++ optKV "day" (t.day.map DynVal.vInt)
        ++ optKV "hour" (t.hour.map DynVal.vInt)
        ++ optKV "minute" (t.minute.map DynVal.vInt)
        ++ optKV "second" (t.second.map DynVal.vRat)
        ++ optKV "week" (t.week.map DynVal.vInt)
        ++ optKV "leapYear" (t.leap_year.map DynVal.vInt)))

/-- Serialized shape of a `PositionConfig`. -/
def serPositionShape (p : PositionConfigT) : DynVal :=
  match p.type with
  | PositionTypeT.LLA =>
      DynVal.vDict
        [("type", DynVal.vStr p.type.val), ("format", DynVal.vStr p.format),
         ("longitude", DynVal.vRat p.longitude),
         ("latitude", DynVal.vRat p.latitude),
         ("altitude", DynVal.vRat p.altitude)]
  | PositionTypeT.ECEF =>
      DynVal.vDict
        (("type", DynVal.vStr p.type.val)
          :: (optKV "x" (p.x.map DynVal.vRat)
            ++ optKV "y" (p.y.map DynVal.vRat)
            ++ optKV "z" (p.z.map DynVal.vRat)))

/-- Serialized shape of a `VelocityConfig`. -/
def serVelocityShape (v : VelocityConfigT) : DynVal :=
  match v.type with
  | VelocityTypeT.SCU =>
      DynVal.vDict
        [("type", DynVal.vStr v.type.val), ("speed", DynVal.vRat v.speed),
         ("course", DynVal.vRat v.course), ("up", DynVal.vRat v.up),
         ("speedUnit", DynVal.vStr v.speed_unit),
         ("angleUnit", DynVal.vStr v.angle_unit)]
  | VelocityTypeT.ENU =>
      DynVal.vDict
        (("type", DynVal.vStr v.type.val) :: ("up", DynVal.vRat v.up)
          :: (optKV "east" (v.east.map DynVal.vRat)
            ++ optKV "north" (v.north.map DynVal.vRat)
            ++ [("eastUnit", DynVal.vStr v.east_unit),
                ("northUnit", DynVal.vStr v.north_unit),
                ("upUnit", DynVal.vStr v.up_unit)]))
  | VelocityTypeT.ECEF =>
      DynVal.vDict
        (("type", DynVal.vStr v.type.val)
          :: (optKV "x" (v.x.map DynVal.vRat)
            ++ optKV "y" (v.y.map DynVal.vRat)
            ++ optKV "z" (v.z.map DynVal.vRat)
            ++ [("xUnit", DynVal.vStr v.x_unit),
                ("yUnit", DynVal.vStr v.y_unit),
                ("zUnit", DynVal.vStr v.z_unit)]))

/-- Serialized shape of a `TrajectorySegment`. -/
def serSegmentShape (s : TrajectorySegmentT) : DynVal :=
  DynVal.vDict
    (("type", DynVal.vStr s.type.val) :: ("time", DynVal.vRat s.time)
      :: (optKV "acceleration" (s.acceleration.map DynVal.vRat)
        ++ optKV "speed" (s.speed.map DynVal.vRat)
        ++ optKV "rate" (s.rate.map DynVal.vRat)
        ++ optKV "angle" (s.angle.map DynVal.vRat)
        ++ optKV "radius" (s.radius.map DynVal.vRat)))

/-- Serialized shape of an `EphemerisConfig` (no `include` key). -/
def serEphShape (e : EphemerisConfigT) : DynVal :=
  DynVal.vDict [("type", DynVal.vStr e.type.val), ("name", DynVal.vStr e.name)]

/-- Serialized shape of a `SystemSelect` with its signal kept. -/
def serSysSelShape (s : SystemSelectT) : DynVal :=
  DynVal.vDict
    [("system", DynVal.vStr s.system.val), ("signal", DynVal.vStr s.signal),
     ("enable", DynVal.vBool s.enable)]

/-- Serialized shape of a `SatelliteMask`. -/
def serSatMaskShape (m : SatelliteMaskT) : DynVal :=
  DynVal.vDict [("system", DynVal.vStr m.system.val), ("svid", svidV m.svid)]

/-- Serialized shape of an `OutputConfig`. -/
def serOutCfgShape (o : OutputConfigT) : DynVal :=
  DynVal.vDict
    [("elevationMask", DynVal.vRat o.elevation_mask),
     ("maskOut", DynVal.vList (o.mask_out.map serSatMaskShape))]

/-- Serialized shape of a `PowerConfig`. -/
def serPowerShape (p : PowerConfigT) : DynVal :=
  DynVal.vDict [("unit", DynVal.vStr p.unit), ("value", DynVal.vRat p.value)]

/-- Serialized shape of a `SignalPowerValue`. -/
def serSigPowValShape (pv : SignalPowerValueT) : DynVal :=
  DynVal.vDict
    [("time", DynVal.vRat pv.time), ("unit", DynVal.vStr pv.unit),
     ("value", DynVal.vRat pv.value)]

/-- Serialized shape of a `SignalPower`. -/
def serSigPowShape (sp : SignalPowerT) : DynVal :=
  DynVal.vDict
    [("system", DynVal.vStr sp.system.val), ("svid", svidV sp.svid),
     ("powerValue", DynVal.vList (sp.power_value.map serSigPowValShape))]

/-- Serialized shape of a `SignalPowerConfig`. -/
def serSigPowCfgShape (pc : SignalPowerConfigT) : DynVal :=
  DynVal.vDict
    [("noiseFloor", DynVal.vRat pc.noise_floor),
     ("initPower", serPowerShape pc.init_power),
     ("elevationAdjust", DynVal.vBool pc.elevation_adjust),
     ("signalPower", DynVal.vList (pc.signal_power.map serSigPowShape))]

/-- Serialized shape of an `AlmanacConfig`. -/
def serAlmanacShape (a : AlmanacConfigT) : DynVal :=
  DynVal.vDict
    [("system", DynVal.vStr a.system.val), ("name", DynVal.vStr a.name)]

/-- Serialized shape of a `TrajectoryConfig`. -/
def serTrajShape (tr : TrajectoryConfigT) : DynVal :=
  DynVal.vDict
    [("name", DynVal.vStr tr.name),
     ("initPosition", serPositionShape tr.init_position),
     ("initVelocity", serVelocityShape tr.init_velocity),
     ("trajectoryList", DynVal.vList (tr.trajectory_list.map serSegmentShape))]

/-- Serialized shape of an `OutputSettings`: the `interval` key appears
only for the position and observation types, the `sampleFreq` and
`centerFreq` keys only for the IF-data type. -/
def serOutSetShape (o : OutputSettingsT) : DynVal :=
  match o.type with
  | OutputTypeT.IF_DATA =>
      DynVal.vDict
        [("type", DynVal.vStr o.type.val),
         ("format", DynVal.vStr o.format.val),
         ("sampleFreq", DynVal.vRat o.sample_freq),
         ("centerFreq", DynVal.vRat o.center_freq),
         ("name", DynVal.vStr o.name),
         ("config", serOutCfgShape o.config),
         ("systemSelect", DynVal.vList (o.system_select.map serSysSelShape))]
  | OutputTypeT.POSITION =>
      DynVal.vDict
        [("type", DynVal.vStr o.type.val),
         ("format", DynVal.vStr o.format.val),
         ("interval", DynVal.vRat o.interval),
         ("name", DynVal.vStr o.name),
         ("config", serOutCfgShape o.config),
         ("systemSelect", DynVal.vList (o.system_select.map serSysSelShape))]
  | OutputTypeT.OBSERVATION =>
      DynVal.vDict
        [("type", DynVal.vStr o.type.val),
         ("format", DynVal.vStr o.format.val),
         ("interval", DynVal.vRat o.interval),
         ("name", DynVal.vStr o.name),
         ("config", serOutCfgShape o.config),
         ("systemSelect", DynVal.vList (o.system_select.map serSysSelShape))]

/-- Serialized shape of a complete configuration: the ephemeris entries
with a falsy `include` are dropped, everything else keeps its structure. -/
def serRootShape (c : GNSSSignalSimConfigT) : DynVal :=
  DynVal.vDict
    [("version", DynVal.vRat c.version),
     ("description", DynVal.vStr c.description),
     ("comment", DynVal.vStr c.comment),
     ("time", serTimeShape c.time),
     ("trajectory", serTrajShape c.trajectory),
     ("ephemeris", DynVal.vList
        ((c.ephemeris.filter (fun e => e.includeFlag)).map serEphShape)),
     ("output", serOutSetShape c.output),
     ("power", serSigPowCfgShape c.power),
     ("almanac", DynVal.vList (c.almanac.map serAlmanacShape))]

/-! ## Serialized-mapping observations -/

/-- Key list of a serialized mapping. -/
def dictKeys (d : DynVal) : List String :=
  match d with
  | DynVal.vDict kvs => kvs.map Prod.fst
  | _ => []

/-- Key membership in a serialized mapping. -/
def dictHasKey (d : DynVal) (k : String) : Bool :=
  (dictKeys d).contains k

/-- Value lookup in a serialized mapping. -/
def dictGet (d : DynVal) (k : String) : Option DynVal :=
  match d with
  | DynVal.vDict kvs => lookupD kvs k
  | _ => Option.none

/-- Key contributed by an optional field. -/
def optName {α : Type} (k : String) (o : Option α) : List String :=
  match o with
  | Option.some _ => [k]
  | Option.none => []

/-- A typed configuration with a non-empty signal, non-legacy units, and
a mixed-`include` ephemeris list. -/
def cW1 : GNSSSignalSimConfigT :=
  { version := 1,
    description := "test configuration",
    comment := "",
    time := ⟨TimeTypeT.GPS, Option.some 2024, Option.some 1, Option.some 2,
             Option.none, Option.none, Option.none, Option.some 2290,
             Option.none⟩,
    trajectory :=
      ⟨"traj",
       ⟨PositionTypeT.LLA, "d", 1, 2, 3, Option.none, Option.none,
        Option.none⟩,
       ⟨VelocityTypeT.SCU, 5, 45, 0, Option.none, Option.none, Option.none,
        Option.none, Option.none, "mps", "degree", "mps", "mps", "mps",
        "mps", "mps", "mps"⟩,
       [⟨TrajectoryTypeT.CONST, 10, Option.none, Option.none, Option.none,
         Option.none, Option.none⟩]⟩,
    ephemeris := [⟨EphemerisTypeT.RINEX, "eph.25n", true⟩,
                  ⟨EphemerisTypeT.YUMA, "alm.txt", false⟩],
    output := ⟨OutputTypeT.IF_DATA, OutputFormatT.IQ8, 20, (1575.42 : Rat),
               1, "out.bin",
               ⟨5, [⟨ConstellationTypeT.GPS, SvidT.many [1, 2]⟩]⟩,
               [⟨ConstellationTypeT.GPS, "L1CA", true⟩]⟩,
    power := ⟨-174, ⟨"dBHz", 45⟩, false,
              [⟨ConstellationTypeT.GPS, SvidT.one 5, [⟨0, "dB", 3⟩]⟩]⟩,
    almanac := [⟨ConstellationTypeT.GPS, "alm"⟩] }

/-- `cW1` with an empty `SystemSelect.signal` and an all-`include`
ephemeris list. -/
def cX1 : GNSSSignalSimConfigT :=
  { cW1 with
    ephemeris := [⟨EphemerisTypeT.RINEX, "eph.25n", true⟩],
    output := { cW1.output with
      system_select := [⟨ConstellationTypeT.GPS, "", true⟩] } }

/-- `cX1` with the signal the round trip actually produces. -/
def cX1fix : GNSSSignalSimConfigT :=
  { cX1 with
    output := { cX1.output with
      system_select := [⟨ConstellationTypeT.GPS, "L1CA", true⟩] } }

/-! ## Claims C6 and C7 -/

/-- Helper for evaluating `dtQ` at concrete dates. -/
theorem dtQ_eval (y m d h mi : Int) (s : Rat) (n : Int)
    (hn : (dateToOrdinal y m d - 1) * 86400 + h * 3600 + mi * 60 = n) :
    dtQ y m d h mi s = (n : Rat) + s := by
  rw [dtQ, hn]

/-- The leap-second table, with every date evaluated to its rational
timestamp. -/
theorem leap_table_eval : LEAP_SECONDS_TABLE =
    [ ((62214393600 : Rat), 1), ((62230291200 : Rat), 2)
    , ((62261827200 : Rat), 3), ((62293363200 : Rat), 4)
    , ((62324899200 : Rat), 5), ((62356521600 : Rat), 6)
    , ((62388057600 : Rat), 7), ((62419593600 : Rat), 8)
    , ((62451129600 : Rat), 9), ((62498390400 : Rat), 10)
    , ((62529926400 : Rat), 11), ((62561462400 : Rat), 12)
    , ((62624620800 : Rat), 13), ((62703590400 : Rat), 14)
    , ((62766748800 : Rat), 15), ((62798284800 : Rat), 16)
    , ((62845545600 : Rat), 17), ((62877081600 : Rat), 18)
    , ((62908617600 : Rat), 19), ((62956051200 : Rat), 20)
    , ((63003312000 : Rat), 21), ((63050745600 : Rat), 22)
    , ((63271670400 : Rat), 23), ((63366364800 : Rat), 24)
    , ((63476697600 : Rat), 25), ((63571305600 : Rat), 26)
    , ((63618825600 : Rat), 27) ] := by
  norm_num [LEAP_SECONDS_TABLE, dtQ,
    show dateToOrdinal 1972 7 1 = 720075 from by decide,
    show dateToOrdinal 1973 1 1 = 720259 from by decide,
    show dateToOrdinal 1974 1 1 = 720624 from by decide,
    show dateToOrdinal 1975 1 1 = 720989 from by decide,
    show dateToOrdinal 1976 1 1 = 721354 from by decide,
    show dateToOrdinal 1977 1 1 = 721720 from by decide,
    show dateToOrdinal 1978 1 1 = 722085 from by decide,
    show dateToOrdinal 1979 1 1 = 722450 from by decide,
    show dateToOrdinal 1980 1 1 = 722815 from by decide,
    show dateToOrdinal 1981 7 1 = 723362 from by decide,
    show dateToOrdinal 1982 7 1 = 723727 from by decide,
    show dateToOrdinal 1983 7 1 = 724092 from by decide,
    show dateToOrdinal 1985 7 1 = 724823 from by decide,
    show dateToOrdinal 1988 1 1 = 725737 from by decide,
    show dateToOrdinal 1990 1 1 = 726468 from by decide,
    show dateToOrdinal 1991 1 1 = 726833 from by decide,
    show dateToOrdinal 1992 7 1 = 727380 from by decide,
    show dateToOrdinal 1993 7 1 = 727745 from by decide,
    show dateToOrdinal 1994 7 1 = 728110 from by decide,
    show dateToOrdinal 1996 1 1 = 728659 from by decide,
    show dateToOrdinal 1997 7 1 = 729206 from by decide,
    show dateToOrdinal 1999 1 1 = 729755 from by decide,
    show dateToOrdinal 2006 1 1 = 732312 from by decide,
    show dateToOrdinal 2009 1 1 = 733408 from by decide,
    show dateToOrdinal 2012 7 1 = 734685 from by decide,
    show dateToOrdinal 2015 7 1 = 735780 from by decide,
    show dateToOrdinal 2017 1 1 = 736330 from by decide]

/-- `GPS_EPOCH` evaluated to its rational timestamp. -/
theorem gps_epoch_eval : GPS_EPOCH = (62451561600 : Rat) := by
  norm_num [GPS_EPOCH, dtQ, show dateToOrdinal 1980 1 6 = 722820 from by decide]

/-- Claim C6: GPS time round-trip.  For every week `w` and second-of-week
`s` (with `0 ≤ s < 604800` as in the GPS representation) whose resulting
UTC instant does not straddle a leap-second boundary — formalized as: the
leap-second lookup at the computed GPS instant and at the resulting UTC
instant agree — `utc_to_gps(gps_to_utc(w, s)) = (w, s)` exactly. -/
theorem claim6_gps_roundtrip (week : Int) (second : Rat)
    (hs0 : 0 ≤ second) (hs1 : second < 604800)
    (hb : leapSecondsForDate LEAP_SECONDS_TABLE
            ((gpsToUtc LEAP_SECONDS_TABLE week second).convertedTime)
          = (gpsToUtc LEAP_SECONDS_TABLE week second).leapSecondsApplied) :
    utcToGps LEAP_SECONDS_TABLE
      ((gpsToUtc LEAP_SECONDS_TABLE week second).convertedTime)
      = (week, second) := by
  simp only [gpsToUtc, utcToGps] at hb ⊢
  rw [hb]
  have harg : GPS_EPOCH + 604800 * (week : Rat) + second
      - (leapSecondsForDate LEAP_SECONDS_TABLE
          (GPS_EPOCH + 604800 * (week : Rat) + second) : Rat)
      + (leapSecondsForDate LEAP_SECONDS_TABLE
          (GPS_EPOCH + 604800 * (week : Rat) + second) : Rat)
      - GPS_EPOCH = second + 604800 * (week : Rat) := by ring
  rw [harg]
  have hdiv : (second + 604800 * (week : Rat)) / 604800
      = second / 604800 + (week : Rat) := by
    field_simp
    ring
  have h0 : ⌊second / 604800⌋ = 0 := by
    rw [Int.floor_eq_zero_iff, Set.mem_Ico]
    refine ⟨div_nonneg hs0 (by norm_num), ?_⟩
    rw [div_lt_one (by norm_num)]
    exact hs1
  have hfl : ⌊(second + 604800 * (week : Rat)) / 604800⌋ = week := by
    rw [hdiv, Int.floor_add_int, h0, zero_add]
  rw [hfl]
  simp only [Prod.mk.injEq]
  exact ⟨trivial, by ring⟩

/-- Claim C6 witness: week 2190, second 259200.0 round-trips exactly. -/
theorem claim6_witness :
    (0 : Rat) ≤ 259200 ∧ (259200 : Rat) < 604800 ∧
    utcToGps LEAP_SECONDS_TABLE
      ((gpsToUtc LEAP_SECONDS_TABLE 2190 259200).convertedTime)
      = (2190, 259200) := by
  have hg : GPS_EPOCH + 604800 * ((2190 : Int) : Rat) + 259200
      = (63776332800 : Rat) := by
    rw [gps_epoch_eval]; norm_num
  have hleap : leapSecondsForDate LEAP_SECONDS_TABLE (63776332800 : Rat) = 27 := by
    rw [leapSecondsForDate, leap_table_eval]
    decide
  have hleap2 : leapSecondsForDate LEAP_SECONDS_TABLE (63776332773 : Rat) = 27 := by
    rw [leapSecondsForDate, leap_table_eval]
    decide
  refine ⟨by norm_num, by norm_num,
    claim6_gps_roundtrip 2190 259200 (by norm_num) (by norm_num) ?_⟩
  simp only [gpsToUtc]
  rw [hg, hleap]
  have hsub : (63776332800 : Rat) - ((27 : Int) : Rat) = 63776332773 := by
    norm_num
  rw [hsub, hleap2]

/-- Claim C7: GLONASS conversion is pure offset arithmetic with no
leap-second correction.  (i) and (ii): neither `glonass_to_utc` nor
`utc_to_glonass` consults the leap-second table (their results are
invariant under the table held by the converter); (iii): for every
(leapYear, day, second), `glonass_to_utc` returns
`datetime(1996+leapYear, 1, 1) + (day-1) days + second seconds - 3 hours`
with `leap_seconds_applied = 0`; (iv): `glonass_to_utc(28, 1, 0)` yields
UTC 2023-12-31T21:00:00. -/
theorem claim7_glonass_pure_offset :
    (∀ (t1 t2 : List (Rat × Int)) (ly d : Int) (s : Rat),
        glonassToUtc t1 ly d s = glonassToUtc t2 ly d s)
    ∧ (∀ (t1 t2 : List (Rat × Int)) (u : Rat),
        utcToGlonass t1 u = utcToGlonass t2 u)
    ∧ (∀ (t : List (Rat × Int)) (ly d : Int) (s : Rat),
        (glonassToUtc t ly d s).convertedTime
          = dtQ (1996 + ly) 1 1 0 0 0 + ((d - 1) * 86400 : Int) + s - 3 * 3600
        ∧ (glonassToUtc t ly d s).leapSecondsApplied = 0)
    ∧ (glonassToUtc LEAP_SECONDS_TABLE 28 1 0).convertedTime
        = dtQ 2023 12 31 21 0 0 := by
  refine ⟨fun t1 t2 ly d s => rfl, fun t1 t2 u => rfl,
    fun t ly d s => ⟨rfl, rfl⟩, ?_⟩
  simp only [glonassToUtc, GLONASS_UTC_OFFSET]
  norm_num [dtQ, show dateToOrdinal 2024 1 1 = 738886 from by decide,
    show dateToOrdinal 2023 12 31 = 738885 from by decide]

/-! ## Claims C8 and C9 -/

/-- Every record produced by the v2 record parser carries the fixed
validity window TOC - 2h / TOC + 4h. -/
theorem parseV2_window (hsys : SatelliteSystemE) (rl : List String)
    (r : EphemerisRecordQ) (h : parseV2NavRecord hsys rl = Option.some r) :
    r.validityStart = r.toc - 2 * 3600 ∧ r.validityEnd = r.toc + 4 * 3600 := by
  unfold parseV2NavRecord at h
  split at h
  · exact absurd h (by simp)
  · cases rl with
    | nil => exact absurd h (by simp)
    | cons firstLine rest =>
        simp only [Option.bind_eq_bind', Option.bind_eq_some,
          Option.some.injEq] at h
        obtain ⟨a1, -, a2, -, a3, -, a4, -, a5, -, a6, -, a7, -, a8, -, h⟩ := h
        subst h
        exact ⟨rfl, rfl⟩

/-- Every record produced by the v3 record parser carries the fixed
validity window TOC - 2h / TOC + 4h. -/
theorem parseV3_window (hsys : SatelliteSystemE) (rl : List String)
    (r : EphemerisRecordQ) (h : parseV3NavRecord hsys rl = Option.some r) :
    r.validityStart = r.toc - 2 * 3600 ∧ r.validityEnd = r.toc + 4 * 3600 := by
  unfold parseV3NavRecord at h
  split at h
  · exact absurd h (by simp)
  · cases rl with
    | nil => exact absurd h (by simp)
    | cons firstLine rest =>
        simp only [Option.bind_eq_bind', Option.bind_eq_some,
          Option.some.injEq] at h
        obtain ⟨a1, -, a2, -, a3, -, a4, -, a5, -, a6, -, a7, -, a8, -, h⟩ := h
        subst h
        exact ⟨rfl, rfl⟩

/-- Every record collected by the navigation-data loop carries the fixed
validity window. -/
theorem navGo_windows (fuel : Nat) :
    ∀ (ver : RinexVersionE) (hsys : SatelliteSystemE) (ls : List String)
      (r : EphemerisRecordQ), r ∈ navGo fuel ver hsys ls →
      r.validityStart = r.toc - 2 * 3600 ∧ r.validityEnd = r.toc + 4 * 3600 := by
  induction fuel with
  | zero =>
      intro ver hsys ls r hr
      simp [navGo] at hr
  | succ f ih =>
      intro ver hsys ls r hr
      match ls with
      | [] => simp [navGo] at hr
      | l :: rest =>
          rw [navGo] at hr
          split at hr
          · exact ih ver hsys rest r hr
          · rw [List.mem_append] at hr
            rcases hr with hr | hr
            · split at hr
              · exact parseV2_window hsys _ r (Option.mem_toList.mp hr)
              · exact parseV3_window hsys _ r (Option.mem_toList.mp hr)
            · exact ih ver hsys _ r hr

/-- Pulling a common subtracted constant out of the running minimum of
validity starts. -/
theorem foldl_min_sub (c : Rat) (l : List EphemerisRecordQ)
    (hl : ∀ r ∈ l, r.validityStart = r.toc - c) :
    ∀ a : Rat,
      l.foldl (fun acc x => min acc x.validityStart) (a - c)
        = l.foldl (fun acc x => min acc x.toc) a - c := by
  induction l with
  | nil => intro a; rfl
  | cons x xs ih =>
      intro a
      simp only [List.foldl_cons]
      rw [hl x (by simp), min_sub_sub_right]
      exact ih (fun r hr => hl r (List.mem_cons_of_mem x hr)) (min a x.toc)

/-- Pulling a common added constant out of the running maximum of
validity ends. -/
theorem foldl_max_add (c : Rat) (l : List EphemerisRecordQ)
    (hl : ∀ r ∈ l, r.validityEnd = r.toc + c) :
    ∀ a : Rat,
      l.foldl (fun acc x => max acc x.validityEnd) (a + c)
        = l.foldl (fun acc x => max acc x.toc) a + c := by
  induction l with
  | nil => intro a; rfl
  | cons x xs ih =>
      intro a
      simp only [List.foldl_cons]
      rw [hl x (by simp), max_add_add_right]
      exact ih (fun r hr => hl r (List.mem_cons_of_mem x hr)) (max a x.toc)

/-- The aggregate validity range of any record list whose members carry
the fixed window equals min TOC - 2h and max TOC + 4h (and is `None` for
an empty list). -/
theorem calcValidityRange_formula (recs : List EphemerisRecordQ)
    (hw : ∀ r ∈ recs,
      r.validityStart = r.toc - 2 * 3600 ∧ r.validityEnd = r.toc + 4 * 3600) :
    calcValidityRange recs =
      (match recs.map (fun r => r.toc) with
       | [] => Option.none
       | t :: ts => Option.some
          (ts.foldl min t - 2 * 3600, ts.foldl max t + 4 * 3600)) := by
  match recs with
  | [] => rfl
  | r :: rs =>
      simp only [calcValidityRange, List.map_cons]
      have h1 := (hw r (by simp)).1
      have h2 := (hw r (by simp)).2
      have hws : ∀ x ∈ rs, x.validityStart = x.toc - 2 * 3600 :=
        fun x hx => (hw x (List.mem_cons_of_mem r hx)).1
      have hwe : ∀ x ∈ rs, x.validityEnd = x.toc + 4 * 3600 :=
        fun x hx => (hw x (List.mem_cons_of_mem r hx)).2
      rw [h1, h2, foldl_min_sub _ rs hws r.toc, foldl_max_add _ rs hwe r.toc]
      rw [List.foldl_map, List.foldl_map]

/-- Claim C8: for every parsed RINEX navigation file (any version, header
system and line content), each produced record has
`validityStart = TOC - 2h` and `validityEnd = TOC + 4h`, and the
aggregate validity range equals `[min TOC - 2h, max TOC + 4h]`, with a
zero-record parse yielding no range (`None`). -/
theorem claim8_validity_windows (ver : RinexVersionE)
    (hsys : SatelliteSystemE) (lines : List String) :
    ((parseNavigationData ver hsys lines).all fun r =>
        decide (r.validityStart = r.toc - 2 * 3600)
          && decide (r.validityEnd = r.toc + 4 * 3600)) = true
    ∧ calcValidityRange (parseNavigationData ver hsys lines) =
        (match (parseNavigationData ver hsys lines).map (fun r => r.toc) with
         | [] => Option.none
         | t :: ts => Option.some
            (ts.foldl min t - 2 * 3600, ts.foldl max t + 4 * 3600)) := by
  have hw := navGo_windows lines.length ver hsys lines
  constructor
  · rw [List.all_eq_true]
    intro r hr
    have := hw r hr
    simp only [Bool.and_eq_true, decide_eq_true_eq]
    exact this
  · exact calcValidityRange_formula _ hw

/-- Claim C9 counterexample: at the entry point `quick_parse_validity`
(= `get_ephemeris_validity_range`), a missing file does NOT fail fast
with a distinguishable not-found condition: the call returns `None`,
exactly the value returned for an existing file that parses with zero
records, while `parse_file` itself raises.  This falsifies the claim
quantified over every parsing entry point. -/
theorem claim9_counterexample :
    quickParseValidity (fun _ => FileState.absent) "eph.25n" = Option.none
    ∧ quickParseValidity fsHeaderOnly "ok.25n" = Option.none
    ∧ parseFileQ (fun _ => FileState.absent) "eph.25n"
        = Except.error ⟨"File not found: eph.25n"⟩ := by
  refine ⟨rfl, ?_, rfl⟩
  decide

/-- Claim C9 (amended): `parse_file` fails fast on a missing path with a
`RinexParseError` whose message `File not found: <path>` is
distinguishable from the wrapped form `Failed to parse RINEX file:
<cause>` used for every other failure, and never returns data for a path
that is not readable; `quick_parse_validity` (and its alias
`get_ephemeris_validity_range`) instead swallows every failure and
returns `None`. -/
theorem claim9_error_semantics (fs : String → FileState) (path : String) :
    (fs path = FileState.absent →
        parseFileQ fs path = Except.error ⟨"File not found: " ++ path⟩)
    ∧ (∀ msg, fs path = FileState.unreadable msg →
        parseFileQ fs path
          = Except.error ⟨"Failed to parse RINEX file: " ++ msg⟩)
    ∧ (∀ res, parseFileQ fs path = Except.ok res →
        ∃ lines, fs path = FileState.readable lines)
    ∧ quickParseValidity fs path =
        (match parseFileQ fs path with
         | Except.ok r => r.validityRange
         | Except.error _ => Option.none) := by
  refine ⟨?_, ?_, ?_, rfl⟩
  · intro h
    simp [parseFileQ, h]
  · intro msg h
    simp [parseFileQ, h]
  · intro res h
    unfold parseFileQ at h
    match hfs : fs path with
    | FileState.absent => rw [hfs] at h; exact absurd h (by simp)
    | FileState.unreadable m => rw [hfs] at h; exact absurd h (by simp)
    | FileState.readable lines => exact ⟨lines, rfl⟩

/-- Claim C9 witness: the amended failure semantics evaluated on concrete
filesystems. -/
theorem claim9_witness :
    parseFileQ (fun _ => FileState.absent) "brdc.25n"
      = Except.error ⟨"File not found: " ++ "brdc.25n"⟩
    ∧ parseFileQ (fun _ => FileState.unreadable "permission denied")
        "brdc.25n"
      = Except.error ⟨"Failed to parse RINEX file: " ++ "permission denied"⟩ :=
  ⟨(claim9_error_semantics (fun _ => FileState.absent) "brdc.25n").1 rfl,
   (claim9_error_semantics (fun _ => FileState.unreadable "permission denied")
      "brdc.25n").2.1 "permission denied" rfl⟩

/-- Serialized shape of a typed `TimeConfig`. -/
theorem ser_time (fuel : Nat) (t : TimeConfigT) :
    convertDataclassF (Nat.succ fuel) (reifyTime t) =
      DynVal.vDict
        (("type", DynVal.vStr t.type.val)
          :: (optKV "year" (t.year.map DynVal.vInt)
            ++ optKV "month" (t.month.map DynVal.vInt)
            ++ optKV "day" (t.day.map DynVal.vInt)
            ++ optKV "hour" (t.hour.map DynVal.vInt)
            ++ optKV "minute" (t.minute.map DynVal.vInt)
            ++ optKV "second" (t.second.map DynVal.vRat)
            ++ optKV "week" (t.week.map DynVal.vInt)
            ++ optKV "leapYear" (t.leap_year.map DynVal.vInt))) := by
  rcases t with ⟨ty, y, mo, da, ho, mi, se, we, ly⟩
  cases y <;> cases mo <;> cases da <;> cases ho <;> cases mi <;> cases se
    <;> cases we <;> cases ly <;> rfl

/-- Enum round-trip for `TimeType` wire values. -/
theorem enum_getD_timeType (x : TimeTypeT) :
    (enumOfValue EnumTy.timeType x.val).getD DynVal.vNone
      = DynVal.vEnum EnumTy.timeType x.val := by
  cases x <;> rfl

/-- Enum round-trip for `PositionType` wire values. -/
theorem enum_getD_positionType (x : PositionTypeT) :
    (enumOfValue EnumTy.positionType x.val).getD DynVal.vNone
      = DynVal.vEnum EnumTy.positionType x.val := by
  cases x <;> rfl

/-- Enum round-trip for `VelocityType` wire values. -/
theorem enum_getD_velocityType (x : VelocityTypeT) :
    (enumOfValue EnumTy.velocityType x.val).getD DynVal.vNone
      = DynVal.vEnum EnumTy.velocityType x.val := by
  cases x <;> rfl

/-- Enum round-trip for `TrajectoryType` wire values. -/
theorem enum_getD_trajectoryType (x : TrajectoryTypeT) :
    (enumOfValue EnumTy.trajectoryType x.val).getD DynVal.vNone
      = DynVal.vEnum EnumTy.trajectoryType x.val := by
  cases x <;> rfl

/-- Enum round-trip for `EphemerisType` wire values. -/
theorem enum_getD_ephemerisType (x : EphemerisTypeT) :
    (enumOfValue EnumTy.ephemerisType x.val).getD DynVal.vNone
      = DynVal.vEnum EnumTy.ephemerisType x.val := by
  cases x <;> rfl

/-- Enum round-trip for `OutputType` wire values. -/
theorem enum_getD_outputType (x : OutputTypeT) :
    (enumOfValue EnumTy.outputType x.val).getD DynVal.vNone
      = DynVal.vEnum EnumTy.outputType x.val := by
  cases x <;> rfl

/-- Enum round-trip for `OutputFormat` wire values. -/
theorem enum_getD_outputFormat (x : OutputFormatT) :
    (enumOfValue EnumTy.outputFormat x.val).getD DynVal.vNone
      = DynVal.vEnum EnumTy.outputFormat x.val := by
  cases x <;> rfl

/-- Enum round-trip for `ConstellationType` wire values. -/
theorem enum_getD_constellationType (x : ConstellationTypeT) :
    (enumOfValue EnumTy.constellationType x.val).getD DynVal.vNone
      = DynVal.vEnum EnumTy.constellationType x.val := by
  cases x <;> rfl

set_option maxHeartbeats 4000000 in
/-- Deserialization of a serialized `TimeConfig` mapping, generic in the
type string. -/
theorem from_time_gen (fuel : Nat) (tyS : String) (y mo da ho mi : Option Int)
    (se : Option Rat) (we ly : Option Int) :
    convertToDataclassF (Nat.succ fuel) (Option.some DCType.timeC)
      (DynVal.vDict
        (("type", DynVal.vStr tyS)
          :: (optKV "year" (y.map DynVal.vInt)
            ++ optKV "month" (mo.map DynVal.vInt)
            ++ optKV "day" (da.map DynVal.vInt)
            ++ optKV "hour" (ho.map DynVal.vInt)
            ++ optKV "minute" (mi.map DynVal.vInt)
            ++ optKV "second" (se.map DynVal.vRat)
            ++ optKV "week" (we.map DynVal.vInt)
            ++ optKV "leapYear" (ly.map DynVal.vInt))))
      = Except.ok (DynVal.vDc DCType.timeC
          [(enumOfValue EnumTy.timeType tyS).getD DynVal.vNone, optIntV y,
           optIntV mo, optIntV da, optIntV ho, optIntV mi, optRatV se,
           optIntV we, optIntV ly]) := by
  cases y <;> cases mo <;> cases da <;> cases ho <;> cases mi <;> cases se
    <;> cases we <;> cases ly <;> rfl

/-- Deserialized value of a serialized typed `TimeConfig`. -/
theorem from_time (fuel : Nat) (t : TimeConfigT) :
    convertToDataclassF (Nat.succ fuel) (Option.some DCType.timeC)
      (DynVal.vDict
        (("type", DynVal.vStr t.type.val)
          :: (optKV "year" (t.year.map DynVal.vInt)
            ++ optKV "month" (t.month.map DynVal.vInt)
            ++ optKV "day" (t.day.map DynVal.vInt)
            ++ optKV "hour" (t.hour.map DynVal.vInt)
            ++ optKV "minute" (t.minute.map DynVal.vInt)
            ++ optKV "second" (t.second.map DynVal.vRat)
            ++ optKV "week" (t.week.map DynVal.vInt)
            ++ optKV "leapYear" (t.leap_year.map DynVal.vInt))))
      = Except.ok (reifyTime t) := by
  have h := from_time_gen fuel t.type.val t.year t.month t.day t.hour
    t.minute t.second t.week t.leap_year
  rw [enum_getD_timeType] at h
  exact h

/-! ## Generic evaluation lemmas for the deserializer -/

/-- One `kwargs` step for a key whose field lookup and value conversion
are known. -/
theorem bk_cons_known (r : Option DCType → DynVal → Except PyError DynVal)
    (t : DCType) (k : String) (v : DynVal) (rest : List (String × DynVal))
    (acc : List (String × DynVal)) (info : FieldInfo) (cv : DynVal)
    (hf : lookupField t (toSnakeCase k) = Option.some info)
    (hc : convertFieldAux r info (toSnakeCase k) v = Except.ok cv) :
    buildKwargsAux r t ((k, v) :: rest) acc
      = buildKwargsAux r t rest (dictSet acc (toSnakeCase k) cv) := by
  simp only [buildKwargsAux, hf, hc]
  rfl

/-- Element-wise conversion of a mapped list whose elements all convert
to the corresponding mapped results. -/
theorem mapConv_congr {α : Type}
    (recurse : Option DCType → DynVal → Except PyError DynVal)
    (tc : Option DCType) (dF rF : α → DynVal) :
    ∀ l : List α, (∀ a ∈ l, recurse tc (dF a) = Except.ok (rF a)) →
      mapConvAux recurse tc (l.map dF) = Except.ok (l.map rF) := by
  intro l
  induction l with
  | nil => intro _; rfl
  | cons a as ih =>
      intro h
      simp only [List.map_cons, mapConvAux, h a (by simp)]
      rw [ih (fun b hb => h b (List.mem_cons_of_mem a hb))]
      rfl

/-- Conversion with a non-dataclass element type returns list elements
unchanged. -/
theorem mapConv_none (fuel : Nat) :
    ∀ xs : List DynVal,
      mapConvAux (convertToDataclassF (Nat.succ fuel)) Option.none xs
        = Except.ok xs := by
  intro xs
  induction xs with
  | nil => rfl
  | cons x xs ih =>
      simp only [mapConvAux]
      rw [show convertToDataclassF (Nat.succ fuel) Option.none x
            = Except.ok x from rfl, ih]
      rfl

/-- `convert_dataclass` leaves ints unchanged at any depth. -/
theorem convert_vInt (g : Nat) (n : Int) :
    convertDataclassF g (DynVal.vInt n) = DynVal.vInt n := by
  cases g <;> rfl

/-! ## Per-entity serialized shapes and deserialized values -/

/-- Serialized shape of a typed `PositionConfig`: the group picked by the
position type, with `None`-valued ECEF coordinates omitted. -/
theorem ser_position (g : Nat) (p : PositionConfigT) :
    convertDataclassF (Nat.succ g) (reifyPosition p) =
      (match p.type with
       | PositionTypeT.LLA =>
          DynVal.vDict
            [("type", DynVal.vStr p.type.val), ("format", DynVal.vStr p.format),
             ("longitude", DynVal.vRat p.longitude),
             ("latitude", DynVal.vRat p.latitude),
             ("altitude", DynVal.vRat p.altitude)]
       | PositionTypeT.ECEF =>
          DynVal.vDict
            (("type", DynVal.vStr p.type.val)
              :: (optKV "x" (p.x.map DynVal.vRat)
                ++ optKV "y" (p.y.map DynVal.vRat)
                ++ optKV "z" (p.z.map DynVal.vRat)))) := by
  rcases p with ⟨ty, fo, lo, la, al, x, y, z⟩
  cases ty
  · rfl
  · cases x <;> cases y <;> cases z <;> rfl

/-- Deserialization of a serialized LLA `PositionConfig` mapping. -/
theorem from_position_lla_gen (fuel : Nat) (tyS fo : String) (lo la al : Rat) :
    convertToDataclassF (Nat.succ fuel) (Option.some DCType.positionC)
      (DynVal.vDict
        [("type", DynVal.vStr tyS), ("format", DynVal.vStr fo),
         ("longitude", DynVal.vRat lo), ("latitude", DynVal.vRat la),
         ("altitude", DynVal.vRat al)])
      = Except.ok (DynVal.vDc DCType.positionC
          [(enumOfValue EnumTy.positionType tyS).getD DynVal.vNone,
           DynVal.vStr fo, DynVal.vRat lo, DynVal.vRat la, DynVal.vRat al,
           DynVal.vNone, DynVal.vNone, DynVal.vNone]) := rfl

/-- Deserialization of a serialized ECEF `PositionConfig` mapping. -/
theorem from_position_ecef_gen (fuel : Nat) (tyS : String) (x y z : Option Rat) :
    convertToDataclassF (Nat.succ fuel) (Option.some DCType.positionC)
      (DynVal.vDict
        (("type", DynVal.vStr tyS)
          :: (optKV "x" (x.map DynVal.vRat)
            ++ optKV "y" (y.map DynVal.vRat)
            ++ optKV "z" (z.map DynVal.vRat))))
      = Except.ok (DynVal.vDc DCType.positionC
          [(enumOfValue EnumTy.positionType tyS).getD DynVal.vNone,
           DynVal.vStr "d", DynVal.vRat 0, DynVal.vRat 0, DynVal.vRat 0,
           optRatV x, optRatV y, optRatV z]) := by
  cases x <;> cases y <;> cases z <;> rfl

/-- Deserialized value of a serialized typed `PositionConfig`: the
active-branch fields are reproduced and the pruned fields come back as
the model defaults. -/
theorem from_position (fuel g : Nat) (p : PositionConfigT) :
    convertToDataclassF (Nat.succ fuel) (Option.some DCType.positionC)
      (convertDataclassF (Nat.succ g) (reifyPosition p))
      = Except.ok (reifyPosition (prunePosition p)) := by
  rw [ser_position]
  rcases p with ⟨ty, fo, lo, la, al, x, y, z⟩
  cases ty
  · have h := from_position_lla_gen fuel PositionTypeT.LLA.val fo lo la al
    rw [enum_getD_positionType] at h
    exact h
  · have h := from_position_ecef_gen fuel PositionTypeT.ECEF.val x y z
    rw [enum_getD_positionType] at h
    exact h

/-- The legacy speed-unit remap is the identity away from the two legacy
tokens. -/
theorem legacyRemap_speed_id (s : String) (h1 : s ≠ "m/s")
    (h2 : s ≠ "km/h") :
    legacyRemap "speed_unit" (DynVal.vStr s) = DynVal.vStr s := by
  simp [legacyRemap, h1, h2]

/-- The legacy angle-unit remap is the identity away from `deg`. -/
theorem legacyRemap_angle_id (s : String) (h : s ≠ "deg") :
    legacyRemap "angle_unit" (DynVal.vStr s) = DynVal.vStr s := by
  simp [legacyRemap, h]

/-- Serialized shape of a typed `VelocityConfig`: exactly the active
group of its type, with `None`-valued optional members omitted. -/
theorem ser_velocity (g : Nat) (v : VelocityConfigT) :
    convertDataclassF (Nat.succ g) (reifyVelocity v) =
      (match v.type with
       | VelocityTypeT.SCU =>
          DynVal.vDict
            [("type", DynVal.vStr v.type.val), ("speed", DynVal.vRat v.speed),
             ("course", DynVal.vRat v.course), ("up", DynVal.vRat v.up),
             ("speedUnit", DynVal.vStr v.speed_unit),
             ("angleUnit", DynVal.vStr v.angle_unit)]
       | VelocityTypeT.ENU =>
          DynVal.vDict
            (("type", DynVal.vStr v.type.val) :: ("up", DynVal.vRat v.up)
              :: (optKV "east" (v.east.map DynVal.vRat)
                ++ optKV "north" (v.north.map DynVal.vRat)
                ++ [("eastUnit", DynVal.vStr v.east_unit),
                    ("northUnit", DynVal.vStr v.north_unit),
                    ("upUnit", DynVal.vStr v.up_unit)]))
       | VelocityTypeT.ECEF =>
          DynVal.vDict
            (("type", DynVal.vStr v.type.val)
              :: (optKV "x" (v.x.map DynVal.vRat)
                ++ optKV "y" (v.y.map DynVal.vRat)
                ++ optKV "z" (v.z.map DynVal.vRat)
                ++ [("xUnit", DynVal.vStr v.x_unit),
                    ("yUnit", DynVal.vStr v.y_unit),
                    ("zUnit", DynVal.vStr v.z_unit)]))) := by
  rcases v with ⟨ty, sp, co, up, ea, no, x, y, z, su, au, eu, nu, uu, xu, yu, zu⟩
  cases ty
  · rfl
  · cases ea <;> cases no <;> rfl
  · cases x <;> cases y <;> cases z <;> rfl

/-- Deserialization of a serialized SCU `VelocityConfig` mapping: the
unit strings go through the legacy remap, everything else is raw. -/
theorem from_velocity_scu_gen (fuel : Nat) (tyS : String) (sp co up : Rat)
    (su au : String) :
    convertToDataclassF (Nat.succ fuel) (Option.some DCType.velocityC)
      (DynVal.vDict
        [("type", DynVal.vStr tyS), ("speed", DynVal.vRat sp),
         ("course", DynVal.vRat co), ("up", DynVal.vRat up),
         ("speedUnit", DynVal.vStr su), ("angleUnit", DynVal.vStr au)])
      = Except.ok (DynVal.vDc DCType.velocityC
          [(enumOfValue EnumTy.velocityType tyS).getD DynVal.vNone,
           DynVal.vRat sp, DynVal.vRat co, DynVal.vRat up, DynVal.vNone,
           DynVal.vNone, DynVal.vNone, DynVal.vNone, DynVal.vNone,
           legacyRemap "speed_unit" (DynVal.vStr su),
           legacyRemap "angle_unit" (DynVal.vStr au), DynVal.vStr "mps",
           DynVal.vStr "mps", DynVal.vStr "mps", DynVal.vStr "mps",
           DynVal.vStr "mps", DynVal.vStr "mps"]) := rfl

/-- Deserialization of a serialized ENU `VelocityConfig` mapping. -/
theorem from_velocity_enu_gen (fuel : Nat) (tyS : String)
    (ea no : Option Rat) (up : Rat) (eu nu uu : String) :
    convertToDataclassF (Nat.succ fuel) (Option.some DCType.velocityC)
      (DynVal.vDict
        (("type", DynVal.vStr tyS) :: ("up", DynVal.vRat up)
          :: (optKV "east" (ea.map DynVal.vRat)
            ++ optKV "north" (no.map DynVal.vRat)
            ++ [("eastUnit", DynVal.vStr eu),
                ("northUnit", DynVal.vStr nu), ("upUnit", DynVal.vStr uu)])))
      = Except.ok (DynVal.vDc DCType.velocityC
          [(enumOfValue EnumTy.velocityType tyS).getD DynVal.vNone,
           DynVal.vRat 0, DynVal.vRat 0, DynVal.vRat up, optRatV ea,
           optRatV no, DynVal.vNone, DynVal.vNone, DynVal.vNone,
           DynVal.vStr "mps", DynVal.vStr "degree", DynVal.vStr eu,
           DynVal.vStr nu, DynVal.vStr uu, DynVal.vStr "mps",
           DynVal.vStr "mps", DynVal.vStr "mps"]) := by
  cases ea <;> cases no <;> rfl

/-- Deserialization of a serialized ECEF `VelocityConfig` mapping. -/
theorem from_velocity_ecef_gen (fuel : Nat) (tyS : String)
    (x y z : Option Rat) (xu yu zu : String) :
    convertToDataclassF (Nat.succ fuel) (Option.some DCType.velocityC)
      (DynVal.vDict
        (("type", DynVal.vStr tyS)
          :: (optKV "x" (x.map DynVal.vRat)
            ++ optKV "y" (y.map DynVal.vRat)
            ++ optKV "z" (z.map DynVal.vRat)
            ++ [("xUnit", DynVal.vStr xu), ("yUnit", DynVal.vStr yu),
                ("zUnit", DynVal.vStr zu)])))
      = Except.ok (DynVal.vDc DCType.velocityC
          [(enumOfValue EnumTy.velocityType tyS).getD DynVal.vNone,
           DynVal.vRat 0, DynVal.vRat 0, DynVal.vRat 0, DynVal.vNone,
           DynVal.vNone, optRatV x, optRatV y, optRatV z, DynVal.vStr "mps",
           DynVal.vStr "degree", DynVal.vStr "mps", DynVal.vStr "mps",
           DynVal.vStr "mps", DynVal.vStr xu, DynVal.vStr yu,
           DynVal.vStr zu]) := by
  cases x <;> cases y <;> cases z <;> rfl

/-- Deserialized value of a serialized typed `VelocityConfig`, under the
legacy-token exclusion on the SCU unit strings: active-branch fields are
reproduced, pruned fields come back as defaults. -/
theorem from_velocity (fuel g : Nat) (v : VelocityConfigT)
    (hunit : v.type = VelocityTypeT.SCU →
      v.speed_unit ≠ "m/s" ∧ v.speed_unit ≠ "km/h" ∧ v.angle_unit ≠ "deg") :
    convertToDataclassF (Nat.succ fuel) (Option.some DCType.velocityC)
      (convertDataclassF (Nat.succ g) (reifyVelocity v))
      = Except.ok (reifyVelocity (pruneVelocity v)) := by
  rw [ser_velocity]
  rcases v with ⟨ty, sp, co, up, ea, no, x, y, z, su, au, eu, nu, uu, xu, yu, zu⟩
  cases ty
  · obtain ⟨h1, h2, h3⟩ := hunit rfl
    have h := from_velocity_scu_gen fuel VelocityTypeT.SCU.val sp co up su au
    rw [enum_getD_velocityType, legacyRemap_speed_id su h1 h2,
      legacyRemap_angle_id au h3] at h
    exact h
  · have h := from_velocity_enu_gen fuel VelocityTypeT.ENU.val ea no up eu nu uu
    rw [enum_getD_velocityType] at h
    exact h
  · have h := from_velocity_ecef_gen fuel VelocityTypeT.ECEF.val x y z xu yu zu
    rw [enum_getD_velocityType] at h
    exact h

/-- Serialized shape of a typed `TrajectorySegment`. -/
theorem ser_segment (g : Nat) (s : TrajectorySegmentT) :
    convertDataclassF (Nat.succ g) (reifySegment s) =
      DynVal.vDict
        (("type", DynVal.vStr s.type.val) :: ("time", DynVal.vRat s.time)
          :: (optKV "acceleration" (s.acceleration.map DynVal.vRat)
            ++ optKV "speed" (s.speed.map DynVal.vRat)
            ++ optKV "rate" (s.rate.map DynVal.vRat)
            ++ optKV "angle" (s.angle.map DynVal.vRat)
            ++ optKV "radius" (s.radius.map DynVal.vRat))) := by
  rcases s with ⟨ty, ti, ac, sp, ra, an, rd⟩
  cases ac <;> cases sp <;> cases ra <;> cases an <;> cases rd <;> rfl

/-- Deserialization of a serialized `TrajectorySegment` mapping, generic
in the type string. -/
theorem from_segment_gen (fuel : Nat) (tyS : String) (ti : Rat)
    (ac sp ra an rd : Option Rat) :
    convertToDataclassF (Nat.succ fuel) (Option.some DCType.trajSegC)
      (DynVal.vDict
        (("type", DynVal.vStr tyS) :: ("time", DynVal.vRat ti)
          :: (optKV "acceleration" (ac.map DynVal.vRat)
            ++ optKV "speed" (sp.map DynVal.vRat)
            ++ optKV "rate" (ra.map DynVal.vRat)
            ++ optKV "angle" (an.map DynVal.vRat)
            ++ optKV "radius" (rd.map DynVal.vRat))))
      = Except.ok (DynVal.vDc DCType.trajSegC
          [(enumOfValue EnumTy.trajectoryType tyS).getD DynVal.vNone,
           DynVal.vRat ti, optRatV ac, optRatV sp, optRatV ra, optRatV an,
           optRatV rd]) := by
  cases ac <;> cases sp <;> cases ra <;> cases an <;> cases rd <;> rfl

/-- Deserialized value of a serialized typed `TrajectorySegment`. -/
theorem from_segment (fuel g : Nat) (s : TrajectorySegmentT) :
    convertToDataclassF (Nat.succ fuel) (Option.some DCType.trajSegC)
      (convertDataclassF (Nat.succ g) (reifySegment s))
      = Except.ok (reifySegment s) := by
  rw [ser_segment]
  have h := from_segment_gen fuel s.type.val s.time s.acceleration s.speed
    s.rate s.angle s.radius
  rw [enum_getD_trajectoryType] at h
  exact h

/-- Serialized shape of a typed `EphemerisConfig`: only the type and the
name; `include` is never emitted. -/
theorem ser_eph (g : Nat) (e : EphemerisConfigT) :
    convertDataclassF (Nat.succ g) (reifyEphemeris e) =
      DynVal.vDict
        [("type", DynVal.vStr e.type.val), ("name", DynVal.vStr e.name)] := rfl

/-- Deserialization of a serialized `EphemerisConfig` mapping: the
`include` flag comes back as its default `True`. -/
theorem from_eph_gen (fuel : Nat) (tyS nm : String) :
    convertToDataclassF (Nat.succ fuel) (Option.some DCType.ephC)
      (DynVal.vDict
        [("type", DynVal.vStr tyS), ("name", DynVal.vStr nm)])
      = Except.ok (DynVal.vDc DCType.ephC
          [(enumOfValue EnumTy.ephemerisType tyS).getD DynVal.vNone,
           DynVal.vStr nm, DynVal.vBool true]) := rfl

/-- Deserialized value of a serialized typed `EphemerisConfig` whose
include flag was `True`. -/
theorem from_eph (fuel g : Nat) (e : EphemerisConfigT)
    (hinc : e.includeFlag = true) :
    convertToDataclassF (Nat.succ fuel) (Option.some DCType.ephC)
      (convertDataclassF (Nat.succ g) (reifyEphemeris e))
      = Except.ok (reifyEphemeris e) := by
  rw [ser_eph]
  have h := from_eph_gen fuel e.type.val e.name
  rw [enum_getD_ephemerisType] at h
  rw [reifyEphemeris, hinc]
  exact h

/-- Serialized shape of a typed `SystemSelect` with a non-empty signal:
no repair happens. -/
theorem ser_sysSel (g : Nat) (s : SystemSelectT) (hsig : s.signal ≠ "") :
    convertDataclassF (Nat.succ g) (reifySystemSelect s) =
      DynVal.vDict
        [("system", DynVal.vStr s.system.val),
         ("signal", DynVal.vStr s.signal),
         ("enable", DynVal.vBool s.enable)] := by
  have hfalse : isNoneOrEmptyStr (DynVal.vStr s.signal) = false := by
    simp [isNoneOrEmptyStr, hsig]
  simp only [reifySystemSelect, convertDataclassF, serFieldsAux, dcFields,
    hfalse]
  rfl

/-- Serialized shape of a typed `SystemSelect` with an empty signal: the
signal is repaired to the per-constellation default. -/
theorem ser_sysSel_empty (g : Nat) (sys : ConstellationTypeT) (en : Bool) :
    convertDataclassF (Nat.succ g)
        (reifySystemSelect ⟨sys, "", en⟩) =
      DynVal.vDict
        [("system", DynVal.vStr sys.val),
         ("signal", DynVal.vStr (defaultSignalForSystem
            (DynVal.vEnum EnumTy.constellationType sys.val))),
         ("enable", DynVal.vBool en)] := rfl

/-- Deserialization of a serialized `SystemSelect` mapping: no signal
repair happens on this path. -/
theorem from_sysSel_gen (fuel : Nat) (sysS sig : String) (en : Bool) :
    convertToDataclassF (Nat.succ fuel) (Option.some DCType.sysSelC)
      (DynVal.vDict
        [("system", DynVal.vStr sysS), ("signal", DynVal.vStr sig),
         ("enable", DynVal.vBool en)])
      = Except.ok (DynVal.vDc DCType.sysSelC
          [(enumOfValue EnumTy.constellationType sysS).getD DynVal.vNone,
           DynVal.vStr sig, DynVal.vBool en]) := rfl

/-- Deserialized value of a serialized typed `SystemSelect`. -/
theorem from_sysSel (fuel g : Nat) (s : SystemSelectT)
    (hsig : s.signal ≠ "") :
    convertToDataclassF (Nat.succ fuel) (Option.some DCType.sysSelC)
      (convertDataclassF (Nat.succ g) (reifySystemSelect s))
      = Except.ok (reifySystemSelect s) := by
  rw [ser_sysSel g s hsig]
  have h := from_sysSel_gen fuel s.system.val s.signal s.enable
  rw [enum_getD_constellationType] at h
  exact h

/-- Serialized shape of a typed `SatelliteMask`. -/
theorem ser_satMask (g : Nat) (m : SatelliteMaskT) :
    convertDataclassF (Nat.succ g) (reifySatelliteMask m) =
      DynVal.vDict
        [("system", DynVal.vStr m.system.val), ("svid", svidV m.svid)] := by
  rcases m with ⟨sys, sv⟩
  cases sv with
  | one n => rfl
  | many ns =>
      have h1 : convertDataclassF (Nat.succ g)
          (reifySatelliteMask ⟨sys, SvidT.many ns⟩) =
          DynVal.vDict
            [("system", DynVal.vStr sys.val),
             ("svid", DynVal.vList (List.map (convertDataclassF g)
                (List.map DynVal.vInt ns)))] := rfl
      have h2 : List.map (convertDataclassF g ∘ DynVal.vInt) ns
          = List.map DynVal.vInt ns :=
        List.map_congr_left (fun n _ => convert_vInt g n)
      rw [h1, List.map_map, h2]
      rfl

/-- Evaluation of one dataclass conversion from known `kwargs` and a
known construction. -/
theorem convert_dc_eval (fuel : Nat) (t : DCType)
    (kvs : List (String × DynVal)) (K : List (String × DynVal))
    (out : DynVal)
    (hk : buildKwargsAux (convertToDataclassF fuel) t kvs [] = Except.ok K)
    (hco : constructDC t K = Except.ok out) :
    convertToDataclassF (Nat.succ fuel) (Option.some t) (DynVal.vDict kvs)
      = Except.ok out := by
  simp only [convertToDataclassF, hk]
  exact hco

/-- Deserialization of a serialized `SatelliteMask` mapping. -/
theorem from_satMask_gen (fuel : Nat) (sysS : String) (sv : SvidT) :
    convertToDataclassF (Nat.succ (Nat.succ fuel))
      (Option.some DCType.satMaskC)
      (DynVal.vDict
        [("system", DynVal.vStr sysS), ("svid", svidV sv)])
      = Except.ok (DynVal.vDc DCType.satMaskC
          [(enumOfValue EnumTy.constellationType sysS).getD DynVal.vNone,
           svidV sv]) := by
  cases sv with
  | one n => rfl
  | many ns =>
      have hc : convertFieldAux (convertToDataclassF (Nat.succ fuel)) fiOpt
          (toSnakeCase "svid") (DynVal.vList (List.map DynVal.vInt ns))
          = Except.ok (DynVal.vList (List.map DynVal.vInt ns)) := by
        have h0 : convertFieldAux (convertToDataclassF (Nat.succ fuel)) fiOpt
            (toSnakeCase "svid") (DynVal.vList (List.map DynVal.vInt ns))
            = (mapConvAux (convertToDataclassF (Nat.succ fuel)) Option.none
                (List.map DynVal.vInt ns)).map DynVal.vList := rfl
        rw [h0, mapConv_none]
        rfl
      have h1 : buildKwargsAux (convertToDataclassF (Nat.succ fuel))
          DCType.satMaskC
          [("system", DynVal.vStr sysS),
           ("svid", DynVal.vList (List.map DynVal.vInt ns))] []
          = Except.ok
              [("system",
                (enumOfValue EnumTy.constellationType sysS).getD DynVal.vNone),
               ("svid", DynVal.vList (List.map DynVal.vInt ns))] := by
        rw [bk_cons_known (convertToDataclassF (Nat.succ fuel))
          DCType.satMaskC "system" (DynVal.vStr sysS)
          [("svid", DynVal.vList (List.map DynVal.vInt ns))] []
          (fiEnum EnumTy.constellationType)
          ((enumOfValue EnumTy.constellationType sysS).getD DynVal.vNone)
          rfl rfl]
        rw [bk_cons_known (convertToDataclassF (Nat.succ fuel))
          DCType.satMaskC "svid" (DynVal.vList (List.map DynVal.vInt ns))
          [] _ fiOpt
          (DynVal.vList (List.map DynVal.vInt ns)) rfl hc]
        rfl
      exact convert_dc_eval _ _ _ _ _ h1 rfl

/-- Deserialized value of a serialized typed `SatelliteMask`. -/
theorem from_satMask (fuel g : Nat) (m : SatelliteMaskT) :
    convertToDataclassF (Nat.succ (Nat.succ fuel))
      (Option.some DCType.satMaskC)
      (convertDataclassF (Nat.succ g) (reifySatelliteMask m))
      = Except.ok (reifySatelliteMask m) := by
  rw [ser_satMask]
  have h := from_satMask_gen fuel m.system.val m.svid
  rw [enum_getD_constellationType] at h
  exact h

/-! ## Composite entities -/

/-- Serialized shape of a typed `PowerConfig`. -/
theorem ser_power (g : Nat) (p : PowerConfigT) :
    convertDataclassF (Nat.succ g) (reifyPowerConfig p)
      = serPowerShape p := rfl

/-- Deserialized value of a serialized `PowerConfig`. -/
theorem from_power (fuel : Nat) (p : PowerConfigT) :
    convertToDataclassF (Nat.succ fuel) (Option.some DCType.powerC)
      (serPowerShape p) = Except.ok (reifyPowerConfig p) := rfl

/-- Serialized shape of a typed `SignalPowerValue`. -/
theorem ser_sigPowVal (g : Nat) (pv : SignalPowerValueT) :
    convertDataclassF (Nat.succ g) (reifySignalPowerValue pv)
      = serSigPowValShape pv := rfl

/-- Deserialized value of a serialized `SignalPowerValue`. -/
theorem from_sigPowVal (fuel : Nat) (pv : SignalPowerValueT) :
    convertToDataclassF (Nat.succ fuel) (Option.some DCType.sigPowValC)
      (serSigPowValShape pv) = Except.ok (reifySignalPowerValue pv) := rfl

/-- Serialized shape of a typed `AlmanacConfig`. -/
theorem ser_almanac (g : Nat) (a : AlmanacConfigT) :
    convertDataclassF (Nat.succ g) (reifyAlmanac a)
      = serAlmanacShape a := rfl

/-- Deserialized value of a serialized `AlmanacConfig`. -/
theorem from_almanac (fuel : Nat) (a : AlmanacConfigT) :
    convertToDataclassF (Nat.succ fuel) (Option.some DCType.almanacC)
      (serAlmanacShape a) = Except.ok (reifyAlmanac a) := by
  have h : convertToDataclassF (Nat.succ fuel) (Option.some DCType.almanacC)
      (serAlmanacShape a)
      = Except.ok (DynVal.vDc DCType.almanacC
          [(enumOfValue EnumTy.constellationType a.system.val).getD
             DynVal.vNone,
           DynVal.vStr a.name]) := rfl
  rw [enum_getD_constellationType] at h
  exact h

/-- Serialized shape of a typed `OutputConfig`. -/
theorem ser_outCfg (g : Nat) (o : OutputConfigT) :
    convertDataclassF (Nat.succ (Nat.succ g)) (reifyOutputConfig o)
      = serOutCfgShape o := by
  have h1 : convertDataclassF (Nat.succ (Nat.succ g)) (reifyOutputConfig o)
      = DynVal.vDict
          [("elevationMask", DynVal.vRat o.elevation_mask),
           ("maskOut", DynVal.vList
              (List.map (convertDataclassF (Nat.succ g))
                (List.map reifySatelliteMask o.mask_out)))] := rfl
  have h2 : List.map (convertDataclassF (Nat.succ g) ∘ reifySatelliteMask)
      o.mask_out = List.map serSatMaskShape o.mask_out :=
    List.map_congr_left (fun m _ => ser_satMask g m)
  rw [h1, List.map_map, h2]
  rfl

/-- Deserialized value of a serialized `OutputConfig`. -/
theorem from_outCfg (fuel : Nat) (o : OutputConfigT) :
    convertToDataclassF (Nat.succ (Nat.succ (Nat.succ fuel)))
      (Option.some DCType.outCfgC) (serOutCfgShape o)
      = Except.ok (reifyOutputConfig o) := by
  have helem : ∀ m ∈ o.mask_out,
      convertToDataclassF (Nat.succ (Nat.succ fuel))
        (Option.some DCType.satMaskC) (serSatMaskShape m)
        = Except.ok (reifySatelliteMask m) := by
    intro m _
    have h := from_satMask fuel 0 m
    rw [ser_satMask 0 m] at h
    exact h
  have hmap := mapConv_congr (convertToDataclassF (Nat.succ (Nat.succ fuel)))
    (Option.some DCType.satMaskC) serSatMaskShape reifySatelliteMask
    o.mask_out helem
  have hc : convertFieldAux (convertToDataclassF (Nat.succ (Nat.succ fuel)))
      (fiListDC DCType.satMaskC) (toSnakeCase "maskOut")
      (DynVal.vList (List.map serSatMaskShape o.mask_out))
      = Except.ok (DynVal.vList (List.map reifySatelliteMask o.mask_out)) := by
    have h0 : convertFieldAux (convertToDataclassF (Nat.succ (Nat.succ fuel)))
        (fiListDC DCType.satMaskC) (toSnakeCase "maskOut")
        (DynVal.vList (List.map serSatMaskShape o.mask_out))
        = (mapConvAux (convertToDataclassF (Nat.succ (Nat.succ fuel)))
            (Option.some DCType.satMaskC)
            (List.map serSatMaskShape o.mask_out)).map DynVal.vList := rfl
    rw [h0, hmap]
    rfl
  have hk : buildKwargsAux (convertToDataclassF (Nat.succ (Nat.succ fuel)))
      DCType.outCfgC
      [("elevationMask", DynVal.vRat o.elevation_mask),
       ("maskOut", DynVal.vList (List.map serSatMaskShape o.mask_out))] []
      = Except.ok
          [("elevation_mask", DynVal.vRat o.elevation_mask),
           ("mask_out",
            DynVal.vList (List.map reifySatelliteMask o.mask_out))] := by
    rw [bk_cons_known (convertToDataclassF (Nat.succ (Nat.succ fuel)))
      DCType.outCfgC "elevationMask" (DynVal.vRat o.elevation_mask) _ _
      fiPlain (DynVal.vRat o.elevation_mask) rfl rfl]
    rw [bk_cons_known (convertToDataclassF (Nat.succ (Nat.succ fuel)))
      DCType.outCfgC "maskOut"
      (DynVal.vList (List.map serSatMaskShape o.mask_out)) _ _
      (fiListDC DCType.satMaskC)
      (DynVal.vList (List.map reifySatelliteMask o.mask_out)) rfl hc]
    rfl
  exact convert_dc_eval (Nat.succ (Nat.succ fuel)) DCType.outCfgC _ _ _ hk rfl

/-- Serialized shape of a typed `SignalPower`. -/
theorem ser_sigPow (g : Nat) (sp : SignalPowerT) :
    convertDataclassF (Nat.succ (Nat.succ g)) (reifySignalPower sp)
      = serSigPowShape sp := by
  rcases sp with ⟨sys, sv, pvs⟩
  have h2 : List.map (convertDataclassF (Nat.succ g) ∘ reifySignalPowerValue)
      pvs = List.map serSigPowValShape pvs :=
    List.map_congr_left (fun pv _ => ser_sigPowVal g pv)
  cases sv with
  | one n =>
      have h1 : convertDataclassF (Nat.succ (Nat.succ g))
          (reifySignalPower ⟨sys, SvidT.one n, pvs⟩)
          = DynVal.vDict
              [("system", DynVal.vStr sys.val),
               ("svid", DynVal.vInt n),
               ("powerValue", DynVal.vList
                  (List.map (convertDataclassF (Nat.succ g))
                    (List.map reifySignalPowerValue pvs)))] := rfl
      rw [h1, List.map_map, h2]
      rfl
  | many ns =>
      have h3 : List.map (convertDataclassF (Nat.succ g) ∘ DynVal.vInt) ns
          = List.map DynVal.vInt ns :=
        List.map_congr_left (fun n _ => convert_vInt (Nat.succ g) n)
      have h1 : convertDataclassF (Nat.succ (Nat.succ g))
          (reifySignalPower ⟨sys, SvidT.many ns, pvs⟩)
          = DynVal.vDict
              [("system", DynVal.vStr sys.val),
               ("svid", DynVal.vList
                  (List.map (convertDataclassF (Nat.succ g))
                    (List.map DynVal.vInt ns))),
               ("powerValue", DynVal.vList
                  (List.map (convertDataclassF (Nat.succ g))
                    (List.map reifySignalPowerValue pvs)))] := rfl
      rw [h1, List.map_map, List.map_map, h2, h3]
      rfl

/-- Deserialized value of a serialized `SignalPower`. -/
theorem from_sigPow (fuel : Nat) (sp : SignalPowerT) :
    convertToDataclassF (Nat.succ (Nat.succ fuel))
      (Option.some DCType.sigPowC) (serSigPowShape sp)
      = Except.ok (reifySignalPower sp) := by
  rcases sp with ⟨sys, sv, pvs⟩
  have helem : ∀ pv ∈ pvs,
      convertToDataclassF (Nat.succ fuel) (Option.some DCType.sigPowValC)
        (serSigPowValShape pv) = Except.ok (reifySignalPowerValue pv) :=
    fun pv _ => from_sigPowVal fuel pv
  have hmap := mapConv_congr (convertToDataclassF (Nat.succ fuel))
    (Option.some DCType.sigPowValC) serSigPowValShape reifySignalPowerValue
    pvs helem
  have hcpv : convertFieldAux (convertToDataclassF (Nat.succ fuel))
      (fiListDC DCType.sigPowValC) (toSnakeCase "powerValue")
      (DynVal.vList (List.map serSigPowValShape pvs))
      = Except.ok
          (DynVal.vList (List.map reifySignalPowerValue pvs)) := by
    have h0 : convertFieldAux (convertToDataclassF (Nat.succ fuel))
        (fiListDC DCType.sigPowValC) (toSnakeCase "powerValue")
        (DynVal.vList (List.map serSigPowValShape pvs))
        = (mapConvAux (convertToDataclassF (Nat.succ fuel))
            (Option.some DCType.sigPowValC)
            (List.map serSigPowValShape pvs)).map DynVal.vList := rfl
    rw [h0, hmap]
    rfl
  have hcsv : convertFieldAux (convertToDataclassF (Nat.succ fuel)) fiOpt
      (toSnakeCase "svid") (svidV sv) = Except.ok (svidV sv) := by
    cases sv with
    | one n => rfl
    | many ns =>
        have h0 : convertFieldAux (convertToDataclassF (Nat.succ fuel)) fiOpt
            (toSnakeCase "svid") (svidV (SvidT.many ns))
            = (mapConvAux (convertToDataclassF (Nat.succ fuel)) Option.none
                (List.map DynVal.vInt ns)).map DynVal.vList := rfl
        rw [h0, mapConv_none]
        rfl
  have hk : buildKwargsAux (convertToDataclassF (Nat.succ fuel))
      DCType.sigPowC
      [("system", DynVal.vStr sys.val), ("svid", svidV sv),
       ("powerValue", DynVal.vList (List.map serSigPowValShape pvs))] []
      = Except.ok
          [("system",
            (enumOfValue EnumTy.constellationType sys.val).getD DynVal.vNone),
           ("svid", svidV sv),
           ("power_value",
            DynVal.vList (List.map reifySignalPowerValue pvs))] := by
    rw [bk_cons_known (convertToDataclassF (Nat.succ fuel)) DCType.sigPowC
      "system" (DynVal.vStr sys.val) _ _ (fiEnum EnumTy.constellationType)
      ((enumOfValue EnumTy.constellationType sys.val).getD DynVal.vNone)
      rfl rfl]
    rw [bk_cons_known (convertToDataclassF (Nat.succ fuel)) DCType.sigPowC
      "svid" (svidV sv) _ _ fiOpt (svidV sv) rfl hcsv]
    rw [bk_cons_known (convertToDataclassF (Nat.succ fuel)) DCType.sigPowC
      "powerValue" (DynVal.vList (List.map serSigPowValShape pvs)) _ _
      (fiListDC DCType.sigPowValC)
      (DynVal.vList (List.map reifySignalPowerValue pvs)) rfl hcpv]
    rfl
  have h := convert_dc_eval (Nat.succ fuel) DCType.sigPowC _ _
    (DynVal.vDc DCType.sigPowC
      [(enumOfValue EnumTy.constellationType sys.val).getD DynVal.vNone,
       svidV sv, DynVal.vList (List.map reifySignalPowerValue pvs)])
    hk rfl
  rw [enum_getD_constellationType] at h
  exact h

/-- A value known to be a mapping converts through a dataclass-annotated
field by recursing at the nested dataclass type. -/
theorem convertFieldAux_dc (r : Option DCType → DynVal → Except PyError DynVal)
    (t2 : DCType) (sk : String) (v : DynVal) (out : DynVal)
    (hv : ∃ kvs, v = DynVal.vDict kvs)
    (h : r (Option.some t2) v = Except.ok out) :
    convertFieldAux r (fiDC t2) sk v = Except.ok out := by
  obtain ⟨kvs, rfl⟩ := hv
  exact h

/-- A serialized position is a mapping. -/
theorem serPositionShape_isDict (p : PositionConfigT) :
    ∃ kvs, serPositionShape p = DynVal.vDict kvs := by
  rcases p with ⟨ty, fo, lo, la, al, x, y, z⟩
  cases ty
  · exact ⟨_, rfl⟩
  · exact ⟨_, rfl⟩

/-- A serialized velocity is a mapping. -/
theorem serVelocityShape_isDict (v : VelocityConfigT) :
    ∃ kvs, serVelocityShape v = DynVal.vDict kvs := by
  rcases v with ⟨ty, sp, co, up, ea, no, x, y, z, su, au, eu, nu, uu, xu, yu, zu⟩
  cases ty
  · exact ⟨_, rfl⟩
  · exact ⟨_, rfl⟩
  · exact ⟨_, rfl⟩

/-- A serialized output settings block is a mapping. -/
theorem serOutSetShape_isDict (o : OutputSettingsT) :
    ∃ kvs, serOutSetShape o = DynVal.vDict kvs := by
  rcases o with ⟨ty, fmt, sf, cf, iv, nm, cfg, ssl⟩
  cases ty
  · exact ⟨_, rfl⟩
  · exact ⟨_, rfl⟩
  · exact ⟨_, rfl⟩

/-- Serialized shape of a typed `SignalPowerConfig`. -/
theorem ser_sigPowCfg (g : Nat) (pc : SignalPowerConfigT) :
    convertDataclassF (Nat.succ (Nat.succ (Nat.succ g)))
      (reifySignalPowerConfig pc) = serSigPowCfgShape pc := by
  have h1 : convertDataclassF (Nat.succ (Nat.succ (Nat.succ g)))
      (reifySignalPowerConfig pc)
      = DynVal.vDict
          [("noiseFloor", DynVal.vRat pc.noise_floor),
           ("initPower", convertDataclassF (Nat.succ (Nat.succ g))
              (reifyPowerConfig pc.init_power)),
           ("elevationAdjust", DynVal.vBool pc.elevation_adjust),
           ("signalPower", DynVal.vList
              (List.map (convertDataclassF (Nat.succ (Nat.succ g)))
                (List.map reifySignalPower pc.signal_power)))] := rfl
  have h2 : List.map
      (convertDataclassF (Nat.succ (Nat.succ g)) ∘ reifySignalPower)
      pc.signal_power = List.map serSigPowShape pc.signal_power :=
    List.map_congr_left (fun sp _ => ser_sigPow g sp)
  rw [h1, ser_power (Nat.succ g) pc.init_power, List.map_map, h2]
  rfl

/-- Deserialized value of a serialized `SignalPowerConfig`. -/
theorem from_sigPowCfg (fuel : Nat) (pc : SignalPowerConfigT) :
    convertToDataclassF (Nat.succ (Nat.succ (Nat.succ fuel)))
      (Option.some DCType.sigPowCfgC) (serSigPowCfgShape pc)
      = Except.ok (reifySignalPowerConfig pc) := by
  have helem : ∀ sp ∈ pc.signal_power,
      convertToDataclassF (Nat.succ (Nat.succ fuel))
        (Option.some DCType.sigPowC) (serSigPowShape sp)
        = Except.ok (reifySignalPower sp) :=
    fun sp _ => from_sigPow fuel sp
  have hmap := mapConv_congr (convertToDataclassF (Nat.succ (Nat.succ fuel)))
    (Option.some DCType.sigPowC) serSigPowShape reifySignalPower
    pc.signal_power helem
  have hcsp : convertFieldAux (convertToDataclassF (Nat.succ (Nat.succ fuel)))
      (fiListDC DCType.sigPowC) (toSnakeCase "signalPower")
      (DynVal.vList (List.map serSigPowShape pc.signal_power))
      = Except.ok
          (DynVal.vList (List.map reifySignalPower pc.signal_power)) := by
    have h0 : convertFieldAux (convertToDataclassF (Nat.succ (Nat.succ fuel)))
        (fiListDC DCType.sigPowC) (toSnakeCase "signalPower")
        (DynVal.vList (List.map serSigPowShape pc.signal_power))
        = (mapConvAux (convertToDataclassF (Nat.succ (Nat.succ fuel)))
            (Option.some DCType.sigPowC)
            (List.map serSigPowShape pc.signal_power)).map DynVal.vList := rfl
    rw [h0, hmap]
    rfl
  have hcip : convertFieldAux (convertToDataclassF (Nat.succ (Nat.succ fuel)))
      (fiDC DCType.powerC) (toSnakeCase "initPower")
      (serPowerShape pc.init_power)
      = Except.ok (reifyPowerConfig pc.init_power) :=
    from_power (Nat.succ fuel) pc.init_power
  have hk : buildKwargsAux (convertToDataclassF (Nat.succ (Nat.succ fuel)))
      DCType.sigPowCfgC
      [("noiseFloor", DynVal.vRat pc.noise_floor),
       ("initPower", serPowerShape pc.init_power),
       ("elevationAdjust", DynVal.vBool pc.elevation_adjust),
       ("signalPower",
        DynVal.vList (List.map serSigPowShape pc.signal_power))] []
      = Except.ok
          [("noise_floor", DynVal.vRat pc.noise_floor),
           ("init_power", reifyPowerConfig pc.init_power),
           ("elevation_adjust", DynVal.vBool pc.elevation_adjust),
           ("signal_power",
            DynVal.vList (List.map reifySignalPower pc.signal_power))] := by
    rw [bk_cons_known (convertToDataclassF (Nat.succ (Nat.succ fuel)))
      DCType.sigPowCfgC "noiseFloor" (DynVal.vRat pc.noise_floor) _ _
      fiPlain (DynVal.vRat pc.noise_floor) rfl rfl]
    rw [bk_cons_known (convertToDataclassF (Nat.succ (Nat.succ fuel)))
      DCType.sigPowCfgC "initPower" (serPowerShape pc.init_power) _ _
      (fiDC DCType.powerC) (reifyPowerConfig pc.init_power) rfl hcip]
    rw [bk_cons_known (convertToDataclassF (Nat.succ (Nat.succ fuel)))
      DCType.sigPowCfgC "elevationAdjust"
      (DynVal.vBool pc.elevation_adjust) _ _
      fiPlain (DynVal.vBool pc.elevation_adjust) rfl rfl]
    rw [bk_cons_known (convertToDataclassF (Nat.succ (Nat.succ fuel)))
      DCType.sigPowCfgC "signalPower"
      (DynVal.vList (List.map serSigPowShape pc.signal_power)) _ _
      (fiListDC DCType.sigPowC)
      (DynVal.vList (List.map reifySignalPower pc.signal_power)) rfl hcsp]
    rfl
  exact convert_dc_eval (Nat.succ (Nat.succ fuel)) DCType.sigPowCfgC _ _ _
    hk rfl

/-- Serialized shape of a typed `TrajectoryConfig`. -/
theorem ser_traj (g : Nat) (tr : TrajectoryConfigT) :
    convertDataclassF (Nat.succ (Nat.succ g)) (reifyTrajectory tr)
      = serTrajShape tr := by
  have h1 : convertDataclassF (Nat.succ (Nat.succ g)) (reifyTrajectory tr)
      = DynVal.vDict
          [("name", DynVal.vStr tr.name),
           ("initPosition", convertDataclassF (Nat.succ g)
              (reifyPosition tr.init_position)),
           ("initVelocity", convertDataclassF (Nat.succ g)
              (reifyVelocity tr.init_velocity)),
           ("trajectoryList", DynVal.vList
              (List.map (convertDataclassF (Nat.succ g))
                (List.map reifySegment tr.trajectory_list)))] := rfl
  have h2 : List.map (convertDataclassF (Nat.succ g) ∘ reifySegment)
      tr.trajectory_list = List.map serSegmentShape tr.trajectory_list :=
    List.map_congr_left (fun s _ => ser_segment g s)
  rw [h1, ser_position g tr.init_position, ser_velocity g tr.init_velocity,
    List.map_map, h2]
  rfl

/-- Deserialized value of a serialized `TrajectoryConfig`, under the
legacy-token exclusion on the SCU velocity units: the pruned position
and velocity fields come back as defaults. -/
theorem from_traj (fuel : Nat) (tr : TrajectoryConfigT)
    (hunit : tr.init_velocity.type = VelocityTypeT.SCU →
      tr.init_velocity.speed_unit ≠ "m/s"
        ∧ tr.init_velocity.speed_unit ≠ "km/h"
        ∧ tr.init_velocity.angle_unit ≠ "deg") :
    convertToDataclassF (Nat.succ (Nat.succ fuel))
      (Option.some DCType.trajC) (serTrajShape tr)
      = Except.ok (reifyTrajectory
          { tr with
            init_position := prunePosition tr.init_position,
            init_velocity := pruneVelocity tr.init_velocity }) := by
  have hcp : convertFieldAux (convertToDataclassF (Nat.succ fuel))
      (fiDC DCType.positionC) (toSnakeCase "initPosition")
      (serPositionShape tr.init_position)
      = Except.ok (reifyPosition (prunePosition tr.init_position)) := by
    refine convertFieldAux_dc _ _ _ _ _
      (serPositionShape_isDict tr.init_position) ?_
    have h := from_position fuel 0 tr.init_position
    rw [ser_position 0 tr.init_position] at h
    exact h
  have hcv : convertFieldAux (convertToDataclassF (Nat.succ fuel))
      (fiDC DCType.velocityC) (toSnakeCase "initVelocity")
      (serVelocityShape tr.init_velocity)
      = Except.ok (reifyVelocity (pruneVelocity tr.init_velocity)) := by
    refine convertFieldAux_dc _ _ _ _ _
      (serVelocityShape_isDict tr.init_velocity) ?_
    have h := from_velocity fuel 0 tr.init_velocity hunit
    rw [ser_velocity 0 tr.init_velocity] at h
    exact h
  have helem : ∀ s ∈ tr.trajectory_list,
      convertToDataclassF (Nat.succ fuel) (Option.some DCType.trajSegC)
        (serSegmentShape s) = Except.ok (reifySegment s) := by
    intro s _
    have h := from_segment fuel 0 s
    rw [ser_segment 0 s] at h
    exact h
  have hmap := mapConv_congr (convertToDataclassF (Nat.succ fuel))
    (Option.some DCType.trajSegC) serSegmentShape reifySegment
    tr.trajectory_list helem
  have hcl : convertFieldAux (convertToDataclassF (Nat.succ fuel))
      (fiListDC DCType.trajSegC) (toSnakeCase "trajectoryList")
      (DynVal.vList (List.map serSegmentShape tr.trajectory_list))
      = Except.ok
          (DynVal.vList (List.map reifySegment tr.trajectory_list)) := by
    have h0 : convertFieldAux (convertToDataclassF (Nat.succ fuel))
        (fiListDC DCType.trajSegC) (toSnakeCase "trajectoryList")
        (DynVal.vList (List.map serSegmentShape tr.trajectory_list))
        = (mapConvAux (convertToDataclassF (Nat.succ fuel))
            (Option.some DCType.trajSegC)
            (List.map serSegmentShape tr.trajectory_list)).map
              DynVal.vList := rfl
    rw [h0, hmap]
    rfl
  have hk : buildKwargsAux (convertToDataclassF (Nat.succ fuel))
      DCType.trajC
      [("name", DynVal.vStr tr.name),
       ("initPosition", serPositionShape tr.init_position),
       ("initVelocity", serVelocityShape tr.init_velocity),
       ("trajectoryList",
        DynVal.vList (List.map serSegmentShape tr.trajectory_list))] []
      = Except.ok
          [("name", DynVal.vStr tr.name),
           ("init_position", reifyPosition (prunePosition tr.init_position)),
           ("init_velocity", reifyVelocity (pruneVelocity tr.init_velocity)),
           ("trajectory_list",
            DynVal.vList (List.map reifySegment tr.trajectory_list))] := by
    rw [bk_cons_known (convertToDataclassF (Nat.succ fuel)) DCType.trajC
      "name" (DynVal.vStr tr.name) _ _ fiPlain (DynVal.vStr tr.name) rfl rfl]
    rw [bk_cons_known (convertToDataclassF (Nat.succ fuel)) DCType.trajC
      "initPosition" (serPositionShape tr.init_position) _ _
      (fiDC DCType.positionC)
      (reifyPosition (prunePosition tr.init_position)) rfl hcp]
    rw [bk_cons_known (convertToDataclassF (Nat.succ fuel)) DCType.trajC
      "initVelocity" (serVelocityShape tr.init_velocity) _ _
      (fiDC DCType.velocityC)
      (reifyVelocity (pruneVelocity tr.init_velocity)) rfl hcv]
    rw [bk_cons_known (convertToDataclassF (Nat.succ fuel)) DCType.trajC
      "trajectoryList"
      (DynVal.vList (List.map serSegmentShape tr.trajectory_list)) _ _
      (fiListDC DCType.trajSegC)
      (DynVal.vList (List.map reifySegment tr.trajectory_list)) rfl hcl]
    rfl
  exact convert_dc_eval (Nat.succ fuel) DCType.trajC _ _ _ hk rfl

/-- Serialized shape of a typed `OutputSettings` whose system selections
all carry a non-empty signal: the type-conditional keys follow the
output type. -/
theorem ser_outSet (g : Nat) (o : OutputSettingsT)
    (hsig : ∀ s ∈ o.system_select, s.signal ≠ "") :
    convertDataclassF (Nat.succ (Nat.succ (Nat.succ g)))
      (reifyOutputSettings o) = serOutSetShape o := by
  rcases o with ⟨ty, fmt, sf, cf, iv, nm, cfg, ssl⟩
  have h2 : List.map
      (convertDataclassF (Nat.succ (Nat.succ g)) ∘ reifySystemSelect) ssl
      = List.map serSysSelShape ssl :=
    List.map_congr_left (fun s hs => ser_sysSel (Nat.succ g) s (hsig s hs))
  cases ty
  · have h1 : convertDataclassF (Nat.succ (Nat.succ (Nat.succ g)))
        (reifyOutputSettings
          ⟨OutputTypeT.IF_DATA, fmt, sf, cf, iv, nm, cfg, ssl⟩)
        = DynVal.vDict
            [("type", DynVal.vStr "IFdata"),
             ("format", DynVal.vStr fmt.val),
             ("sampleFreq", DynVal.vRat sf),
             ("centerFreq", DynVal.vRat cf),
             ("name", DynVal.vStr nm),
             ("config", convertDataclassF (Nat.succ (Nat.succ g))
                (reifyOutputConfig cfg)),
             ("systemSelect", DynVal.vList
                (List.map (convertDataclassF (Nat.succ (Nat.succ g)))
                  (List.map reifySystemSelect ssl)))] := rfl
    rw [h1, ser_outCfg g cfg, List.map_map, h2]
    rfl
  · have h1 : convertDataclassF (Nat.succ (Nat.succ (Nat.succ g)))
        (reifyOutputSettings
          ⟨OutputTypeT.POSITION, fmt, sf, cf, iv, nm, cfg, ssl⟩)
        = DynVal.vDict
            [("type", DynVal.vStr "position"),
             ("format", DynVal.vStr fmt.val),
             ("interval", DynVal.vRat iv),
             ("name", DynVal.vStr nm),
             ("config", convertDataclassF (Nat.succ (Nat.succ g))
                (reifyOutputConfig cfg)),
             ("systemSelect", DynVal.vList
                (List.map (convertDataclassF (Nat.succ (Nat.succ g)))
                  (List.map reifySystemSelect ssl)))] := rfl
    rw [h1, ser_outCfg g cfg, List.map_map, h2]
    rfl
  · have h1 : convertDataclassF (Nat.succ (Nat.succ (Nat.succ g)))
        (reifyOutputSettings
          ⟨OutputTypeT.OBSERVATION, fmt, sf, cf, iv, nm, cfg, ssl⟩)
        = DynVal.vDict
            [("type", DynVal.vStr "observation"),
             ("format", DynVal.vStr fmt.val),
             ("interval", DynVal.vRat iv),
             ("name", DynVal.vStr nm),
             ("config", convertDataclassF (Nat.succ (Nat.succ g))
                (reifyOutputConfig cfg)),
             ("systemSelect", DynVal.vList
                (List.map (convertDataclassF (Nat.succ (Nat.succ g)))
                  (List.map reifySystemSelect ssl)))] := rfl
    rw [h1, ser_outCfg g cfg, List.map_map, h2]
    rfl

/-- Deserialized value of a serialized `OutputSettings`: the keys pruned
by the output type come back as the declared defaults. -/
theorem from_outSet (fuel : Nat) (o : OutputSettingsT) :
    convertToDataclassF
      (Nat.succ (Nat.succ (Nat.succ (Nat.succ fuel))))
      (Option.some DCType.outSetC) (serOutSetShape o)
      = Except.ok (reifyOutputSettings (pruneOutput o)) := by
  rcases o with ⟨ty, fmt, sf, cf, iv, nm, cfg, ssl⟩
  have hccfg : convertFieldAux
      (convertToDataclassF (Nat.succ (Nat.succ (Nat.succ fuel))))
      (fiDC DCType.outCfgC) (toSnakeCase "config") (serOutCfgShape cfg)
      = Except.ok (reifyOutputConfig cfg) := from_outCfg fuel cfg
  have helem : ∀ ss ∈ ssl,
      convertToDataclassF (Nat.succ (Nat.succ (Nat.succ fuel)))
        (Option.some DCType.sysSelC) (serSysSelShape ss)
        = Except.ok (reifySystemSelect ss) := by
    intro ss _
    have h := from_sysSel_gen (Nat.succ (Nat.succ fuel)) ss.system.val
      ss.signal ss.enable
    rw [enum_getD_constellationType] at h
    exact h
  have hmap := mapConv_congr
    (convertToDataclassF (Nat.succ (Nat.succ (Nat.succ fuel))))
    (Option.some DCType.sysSelC) serSysSelShape reifySystemSelect ssl helem
  have hcss : convertFieldAux
      (convertToDataclassF (Nat.succ (Nat.succ (Nat.succ fuel))))
      (fiListDC DCType.sysSelC) (toSnakeCase "systemSelect")
      (DynVal.vList (List.map serSysSelShape ssl))
      = Except.ok (DynVal.vList (List.map reifySystemSelect ssl)) := by
    have h0 : convertFieldAux
        (convertToDataclassF (Nat.succ (Nat.succ (Nat.succ fuel))))
        (fiListDC DCType.sysSelC) (toSnakeCase "systemSelect")
        (DynVal.vList (List.map serSysSelShape ssl))
        = (mapConvAux
            (convertToDataclassF (Nat.succ (Nat.succ (Nat.succ fuel))))
            (Option.some DCType.sysSelC)
            (List.map serSysSelShape ssl)).map DynVal.vList := rfl
    rw [h0, hmap]
    rfl
  cases ty
  · have hk : buildKwargsAux
        (convertToDataclassF (Nat.succ (Nat.succ (Nat.succ fuel))))
        DCType.outSetC
        [("type", DynVal.vStr "IFdata"),
         ("format", DynVal.vStr fmt.val),
         ("sampleFreq", DynVal.vRat sf),
         ("centerFreq", DynVal.vRat cf),
         ("name", DynVal.vStr nm),
         ("config", serOutCfgShape cfg),
         ("systemSelect", DynVal.vList (List.map serSysSelShape ssl))] []
        = Except.ok
            [("type", DynVal.vEnum EnumTy.outputType "IFdata"),
             ("format",
              (enumOfValue EnumTy.outputFormat fmt.val).getD DynVal.vNone),
             ("sample_freq", DynVal.vRat sf),
             ("center_freq", DynVal.vRat cf),
             ("name", DynVal.vStr nm),
             ("config", reifyOutputConfig cfg),
             ("system_select",
              DynVal.vList (List.map reifySystemSelect ssl))] := by
      rw [bk_cons_known
        (convertToDataclassF (Nat.succ (Nat.succ (Nat.succ fuel))))
        DCType.outSetC "type" (DynVal.vStr "IFdata") _ _
        (fiEnum EnumTy.outputType)
        (DynVal.vEnum EnumTy.outputType "IFdata") rfl rfl]
      rw [bk_cons_known
        (convertToDataclassF (Nat.succ (Nat.succ (Nat.succ fuel))))
        DCType.outSetC "format" (DynVal.vStr fmt.val) _ _
        (fiEnum EnumTy.outputFormat)
        ((enumOfValue EnumTy.outputFormat fmt.val).getD DynVal.vNone)
        rfl rfl]
      rw [bk_cons_known
        (convertToDataclassF (Nat.succ (Nat.succ (Nat.succ fuel))))
        DCType.outSetC "sampleFreq" (DynVal.vRat sf) _ _
        fiPlain (DynVal.vRat sf) rfl rfl]
      rw [bk_cons_known
        (convertToDataclassF (Nat.succ (Nat.succ (Nat.succ fuel))))
        DCType.outSetC "centerFreq" (DynVal.vRat cf) _ _
        fiPlain (DynVal.vRat cf) rfl rfl]
      rw [bk_cons_known
        (convertToDataclassF (Nat.succ (Nat.succ (Nat.succ fuel))))
        DCType.outSetC "name" (DynVal.vStr nm) _ _
        fiPlain (DynVal.vStr nm) rfl rfl]
      rw [bk_cons_known
        (convertToDataclassF (Nat.succ (Nat.succ (Nat.succ fuel))))
        DCType.outSetC "config" (serOutCfgShape cfg) _ _
        (fiDC DCType.outCfgC) (reifyOutputConfig cfg) rfl hccfg]
      rw [bk_cons_known
        (convertToDataclassF (Nat.succ (Nat.succ (Nat.succ fuel))))
        DCType.outSetC "systemSelect"
        (DynVal.vList (List.map serSysSelShape ssl)) _ _
        (fiListDC DCType.sysSelC)
        (DynVal.vList (List.map reifySystemSelect ssl)) rfl hcss]
      rfl
    have h := convert_dc_eval (Nat.succ (Nat.succ (Nat.succ fuel)))
      DCType.outSetC _ _
      (DynVal.vDc DCType.outSetC
        [DynVal.vEnum EnumTy.outputType "IFdata",
         (enumOfValue EnumTy.outputFormat fmt.val).getD DynVal.vNone,
         DynVal.vRat sf, DynVal.vRat cf, DynVal.vRat 1, DynVal.vStr nm,
         reifyOutputConfig cfg,
         DynVal.vList (List.map reifySystemSelect ssl)]) hk rfl
    rw [enum_getD_outputFormat] at h
    exact h
  · have hk : buildKwargsAux
        (convertToDataclassF (Nat.succ (Nat.succ (Nat.succ fuel))))
        DCType.outSetC
        [("type", DynVal.vStr "position"),
         ("format", DynVal.vStr fmt.val),
         ("interval", DynVal.vRat iv),
         ("name", DynVal.vStr nm),
         ("config", serOutCfgShape cfg),
         ("systemSelect", DynVal.vList (List.map serSysSelShape ssl))] []
        = Except.ok
            [("type", DynVal.vEnum EnumTy.outputType "position"),
             ("format",
              (enumOfValue EnumTy.outputFormat fmt.val).getD DynVal.vNone),
             ("interval", DynVal.vRat iv),
             ("name", DynVal.vStr nm),
             ("config", reifyOutputConfig cfg),
             ("system_select",
              DynVal.vList (List.map reifySystemSelect ssl))] := by
      rw [bk_cons_known
        (convertToDataclassF (Nat.succ (Nat.succ (Nat.succ fuel))))
        DCType.outSetC "type" (DynVal.vStr "position") _ _
        (fiEnum EnumTy.outputType)
        (DynVal.vEnum EnumTy.outputType "position") rfl rfl]
      rw [bk_cons_known
        (convertToDataclassF (Nat.succ (Nat.succ (Nat.succ fuel))))
        DCType.outSetC "format" (DynVal.vStr fmt.val) _ _
        (fiEnum EnumTy.outputFormat)
        ((enumOfValue EnumTy.outputFormat fmt.val).getD DynVal.vNone)
        rfl rfl]
      rw [bk_cons_known
        (convertToDataclassF (Nat.succ (Nat.succ (Nat.succ fuel))))
        DCType.outSetC "interval" (DynVal.vRat iv) _ _
        fiPlain (DynVal.vRat iv) rfl rfl]
      rw [bk_cons_known
        (convertToDataclassF (Nat.succ (Nat.succ (Nat.succ fuel))))
        DCType.outSetC "name" (DynVal.vStr nm) _ _
        fiPlain (DynVal.vStr nm) rfl rfl]
      rw [bk_cons_known
        (convertToDataclassF (Nat.succ (Nat.succ (Nat.succ fuel))))
        DCType.outSetC "config" (serOutCfgShape cfg) _ _
        (fiDC DCType.outCfgC) (reifyOutputConfig cfg) rfl hccfg]
      rw [bk_cons_known
        (convertToDataclassF (Nat.succ (Nat.succ (Nat.succ fuel))))
        DCType.outSetC "systemSelect"
        (DynVal.vList (List.map serSysSelShape ssl)) _ _
        (fiListDC DCType.sysSelC)
        (DynVal.vList (List.map reifySystemSelect ssl)) rfl hcss]
      rfl
    have h := convert_dc_eval (Nat.succ (Nat.succ (Nat.succ fuel)))
      DCType.outSetC _ _
      (DynVal.vDc DCType.outSetC
        [DynVal.vEnum EnumTy.outputType "position",
         (enumOfValue EnumTy.outputFormat fmt.val).getD DynVal.vNone,
         DynVal.vRat 20, DynVal.vRat (1575.42 : Rat), DynVal.vRat iv,
         DynVal.vStr nm, reifyOutputConfig cfg,
         DynVal.vList (List.map reifySystemSelect ssl)]) hk rfl
    rw [enum_getD_outputFormat] at h
    exact h
  · have hk : buildKwargsAux
        (convertToDataclassF (Nat.succ (Nat.succ (Nat.succ fuel))))
        DCType.outSetC
        [("type", DynVal.vStr "observation"),
         ("format", DynVal.vStr fmt.val),
         ("interval", DynVal.vRat iv),
         ("name", DynVal.vStr nm),
         ("config", serOutCfgShape cfg),
         ("systemSelect", DynVal.vList (List.map serSysSelShape ssl))] []
        = Except.ok
            [("type", DynVal.vEnum EnumTy.outputType "observation"),
             ("format",
              (enumOfValue EnumTy.outputFormat fmt.val).getD DynVal.vNone),
             ("interval", DynVal.vRat iv),
             ("name", DynVal.vStr nm),
             ("config", reifyOutputConfig cfg),
             ("system_select",
              DynVal.vList (List.map reifySystemSelect ssl))] := by
      rw [bk_cons_known
        (convertToDataclassF (Nat.succ (Nat.succ (Nat.succ fuel))))
        DCType.outSetC "type" (DynVal.vStr "observation") _ _
        (fiEnum EnumTy.outputType)
        (DynVal.vEnum EnumTy.outputType "observation") rfl rfl]
      rw [bk_cons_known
        (convertToDataclassF (Nat.succ (Nat.succ (Nat.succ fuel))))
        DCType.outSetC "format" (DynVal.vStr fmt.val) _ _
        (fiEnum EnumTy.outputFormat)
        ((enumOfValue EnumTy.outputFormat fmt.val).getD DynVal.vNone)
        rfl rfl]
      rw [bk_cons_known
        (convertToDataclassF (Nat.succ (Nat.succ (Nat.succ fuel))))
        DCType.outSetC "interval" (DynVal.vRat iv) _ _
        fiPlain (DynVal.vRat iv) rfl rfl]
      rw [bk_cons_known
        (convertToDataclassF (Nat.succ (Nat.succ (Nat.succ fuel))))
        DCType.outSetC "name" (DynVal.vStr nm) _ _
        fiPlain (DynVal.vStr nm) rfl rfl]
      rw [bk_cons_known
        (convertToDataclassF (Nat.succ (Nat.succ (Nat.succ fuel))))
        DCType.outSetC "config" (serOutCfgShape cfg) _ _
        (fiDC DCType.outCfgC) (reifyOutputConfig cfg) rfl hccfg]
      rw [bk_cons_known
        (convertToDataclassF (Nat.succ (Nat.succ (Nat.succ fuel))))
        DCType.outSetC "systemSelect"
        (DynVal.vList (List.map serSysSelShape ssl)) _ _
        (fiListDC DCType.sysSelC)
        (DynVal.vList (List.map reifySystemSelect ssl)) rfl hcss]
      rfl
    have h := convert_dc_eval (Nat.succ (Nat.succ (Nat.succ fuel)))
      DCType.outSetC _ _
      (DynVal.vDc DCType.outSetC
        [DynVal.vEnum EnumTy.outputType "observation",
         (enumOfValue EnumTy.outputFormat fmt.val).getD DynVal.vNone,
         DynVal.vRat 20, DynVal.vRat (1575.42 : Rat), DynVal.vRat iv,
         DynVal.vStr nm, reifyOutputConfig cfg,
         DynVal.vList (List.map reifySystemSelect ssl)]) hk rfl
    rw [enum_getD_outputFormat] at h
    exact h

/-- The serializer filter on reified ephemeris entries agrees with the
typed `include` filter. -/
theorem filter_reify_eph (l : List EphemerisConfigT) :
    List.filter (fun e => pyTruthy (getattrInclude e))
      (List.map reifyEphemeris l)
      = List.map reifyEphemeris
          (List.filter (fun e => e.includeFlag) l) := by
  induction l with
  | nil => rfl
  | cons e es ih =>
      rcases e with ⟨ety, enm, einc⟩
      simp only [List.map_cons, List.filter_cons]
      rw [show pyTruthy (getattrInclude (reifyEphemeris ⟨ety, enm, einc⟩))
            = einc from rfl]
      cases einc <;> simp [ih]

/-- Serialized shape of a complete typed configuration whose system
selections all carry a non-empty signal. -/
theorem ser_root (g : Nat) (c : GNSSSignalSimConfigT)
    (hsig : ∀ s ∈ c.output.system_select, s.signal ≠ "") :
    convertDataclassF (Nat.succ (Nat.succ (Nat.succ (Nat.succ g))))
      (reifyConfig c) = serRootShape c := by
  have h1 : convertDataclassF (Nat.succ (Nat.succ (Nat.succ (Nat.succ g))))
      (reifyConfig c)
      = DynVal.vDict
          [("version", DynVal.vRat c.version),
           ("description", DynVal.vStr c.description),
           ("comment", DynVal.vStr c.comment),
           ("time", convertDataclassF (Nat.succ (Nat.succ (Nat.succ g)))
              (reifyTime c.time)),
           ("trajectory",
            convertDataclassF (Nat.succ (Nat.succ (Nat.succ g)))
              (reifyTrajectory c.trajectory)),
           ("ephemeris", DynVal.vList
              (List.map (convertDataclassF (Nat.succ (Nat.succ (Nat.succ g))))
                (List.filter (fun e => pyTruthy (getattrInclude e))
                  (List.map reifyEphemeris c.ephemeris)))),
           ("output", convertDataclassF (Nat.succ (Nat.succ (Nat.succ g)))
              (reifyOutputSettings c.output)),
           ("power", convertDataclassF (Nat.succ (Nat.succ (Nat.succ g)))
              (reifySignalPowerConfig c.power)),
           ("almanac", DynVal.vList
              (List.map (convertDataclassF (Nat.succ (Nat.succ (Nat.succ g))))
                (List.map reifyAlmanac c.almanac)))] := rfl
  have h2 : List.map
      (convertDataclassF (Nat.succ (Nat.succ (Nat.succ g))) ∘ reifyEphemeris)
      (List.filter (fun e => e.includeFlag) c.ephemeris)
      = List.map serEphShape
          (List.filter (fun e => e.includeFlag) c.ephemeris) :=
    List.map_congr_left (fun e _ => ser_eph (Nat.succ (Nat.succ g)) e)
  have h3 : List.map
      (convertDataclassF (Nat.succ (Nat.succ (Nat.succ g))) ∘ reifyAlmanac)
      c.almanac = List.map serAlmanacShape c.almanac :=
    List.map_congr_left (fun a _ => ser_almanac (Nat.succ (Nat.succ g)) a)
  rw [h1, filter_reify_eph, List.map_map, List.map_map,
    ser_time (Nat.succ (Nat.succ g)) c.time,
    ser_traj (Nat.succ g) c.trajectory, ser_outSet g c.output hsig,
    ser_sigPowCfg g c.power, h2, h3]
  rfl

/-- Deserialized value of a serialized complete configuration, under the
legacy-token exclusion on the SCU velocity units. -/
theorem from_root (fuel : Nat) (c : GNSSSignalSimConfigT)
    (hunit : c.trajectory.init_velocity.type = VelocityTypeT.SCU →
      c.trajectory.init_velocity.speed_unit ≠ "m/s"
        ∧ c.trajectory.init_velocity.speed_unit ≠ "km/h"
        ∧ c.trajectory.init_velocity.angle_unit ≠ "deg") :
    convertToDataclassF
      (Nat.succ (Nat.succ (Nat.succ (Nat.succ (Nat.succ fuel)))))
      (Option.some DCType.rootC) (serRootShape c)
      = Except.ok (reifyConfig (pruneConfig c)) := by
  have hct : convertFieldAux
      (convertToDataclassF (Nat.succ (Nat.succ (Nat.succ (Nat.succ fuel)))))
      (fiDC DCType.timeC) (toSnakeCase "time") (serTimeShape c.time)
      = Except.ok (reifyTime c.time) :=
    from_time (Nat.succ (Nat.succ (Nat.succ fuel))) c.time
  have hctr : convertFieldAux
      (convertToDataclassF (Nat.succ (Nat.succ (Nat.succ (Nat.succ fuel)))))
      (fiDC DCType.trajC) (toSnakeCase "trajectory")
      (serTrajShape c.trajectory)
      = Except.ok (reifyTrajectory
          { c.trajectory with
            init_position := prunePosition c.trajectory.init_position,
            init_velocity := pruneVelocity c.trajectory.init_velocity }) :=
    from_traj (Nat.succ (Nat.succ fuel)) c.trajectory hunit
  have heleme : ∀ e ∈ List.filter (fun e => e.includeFlag) c.ephemeris,
      convertToDataclassF (Nat.succ (Nat.succ (Nat.succ (Nat.succ fuel))))
        (Option.some DCType.ephC) (serEphShape e)
        = Except.ok (reifyEphemeris e) := by
    intro e he
    have hinc := (List.mem_filter.mp he).2
    have h := from_eph (Nat.succ (Nat.succ (Nat.succ fuel))) 0 e hinc
    rw [ser_eph 0 e] at h
    exact h
  have hmape := mapConv_congr
    (convertToDataclassF (Nat.succ (Nat.succ (Nat.succ (Nat.succ fuel)))))
    (Option.some DCType.ephC) serEphShape reifyEphemeris
    (List.filter (fun e => e.includeFlag) c.ephemeris) heleme
  have hce : convertFieldAux
      (convertToDataclassF (Nat.succ (Nat.succ (Nat.succ (Nat.succ fuel)))))
      (fiListDC DCType.ephC) (toSnakeCase "ephemeris")
      (DynVal.vList (List.map serEphShape
        (List.filter (fun e => e.includeFlag) c.ephemeris)))
      = Except.ok (DynVal.vList (List.map reifyEphemeris
          (List.filter (fun e => e.includeFlag) c.ephemeris))) := by
    have h0 : convertFieldAux
        (convertToDataclassF (Nat.succ (Nat.succ (Nat.succ (Nat.succ fuel)))))
        (fiListDC DCType.ephC) (toSnakeCase "ephemeris")
        (DynVal.vList (List.map serEphShape
          (List.filter (fun e => e.includeFlag) c.ephemeris)))
        = (mapConvAux
            (convertToDataclassF
              (Nat.succ (Nat.succ (Nat.succ (Nat.succ fuel)))))
            (Option.some DCType.ephC)
            (List.map serEphShape
              (List.filter (fun e => e.includeFlag) c.ephemeris))).map
              DynVal.vList := rfl
    rw [h0, hmape]
    rfl
  have hcout : convertFieldAux
      (convertToDataclassF (Nat.succ (Nat.succ (Nat.succ (Nat.succ fuel)))))
      (fiDC DCType.outSetC) (toSnakeCase "output") (serOutSetShape c.output)
      = Except.ok (reifyOutputSettings (pruneOutput c.output)) := by
    refine convertFieldAux_dc _ _ _ _ _ (serOutSetShape_isDict c.output) ?_
    exact from_outSet fuel c.output
  have hcpow : convertFieldAux
      (convertToDataclassF (Nat.succ (Nat.succ (Nat.succ (Nat.succ fuel)))))
      (fiDC DCType.sigPowCfgC) (toSnakeCase "power")
      (serSigPowCfgShape c.power)
      = Except.ok (reifySignalPowerConfig c.power) :=
    from_sigPowCfg (Nat.succ fuel) c.power
  have helema : ∀ a ∈ c.almanac,
      convertToDataclassF (Nat.succ (Nat.succ (Nat.succ (Nat.succ fuel))))
        (Option.some DCType.almanacC) (serAlmanacShape a)
        = Except.ok (reifyAlmanac a) :=
    fun a _ => from_almanac (Nat.succ (Nat.succ (Nat.succ fuel))) a
  have hmapa := mapConv_congr
    (convertToDataclassF (Nat.succ (Nat.succ (Nat.succ (Nat.succ fuel)))))
    (Option.some DCType.almanacC) serAlmanacShape reifyAlmanac
    c.almanac helema
  have hca : convertFieldAux
      (convertToDataclassF (Nat.succ (Nat.succ (Nat.succ (Nat.succ fuel)))))
      (fiListDC DCType.almanacC) (toSnakeCase "almanac")
      (DynVal.vList (List.map serAlmanacShape c.almanac))
      = Except.ok
          (DynVal.vList (List.map reifyAlmanac c.almanac)) := by
    have h0 : convertFieldAux
        (convertToDataclassF (Nat.succ (Nat.succ (Nat.succ (Nat.succ fuel)))))
        (fiListDC DCType.almanacC) (toSnakeCase "almanac")
        (DynVal.vList (List.map serAlmanacShape c.almanac))
        = (mapConvAux
            (convertToDataclassF
              (Nat.succ (Nat.succ (Nat.succ (Nat.succ fuel)))))
            (Option.some DCType.almanacC)
            (List.map serAlmanacShape c.almanac)).map DynVal.vList := rfl
    rw [h0, hmapa]
    rfl
  have hk : buildKwargsAux
      (convertToDataclassF (Nat.succ (Nat.succ (Nat.succ (Nat.succ fuel)))))
      DCType.rootC
      [("version", DynVal.vRat c.version),
       ("description", DynVal.vStr c.description),
       ("comment", DynVal.vStr c.comment),
       ("time", serTimeShape c.time),
       ("trajectory", serTrajShape c.trajectory),
       ("ephemeris", DynVal.vList
          ((c.ephemeris.filter (fun e => e.includeFlag)).map serEphShape)),
       ("output", serOutSetShape c.output),
       ("power", serSigPowCfgShape c.power),
       ("almanac", DynVal.vList (c.almanac.map serAlmanacShape))] []
      = Except.ok
          [("version", DynVal.vRat c.version),
           ("description", DynVal.vStr c.description),
           ("comment", DynVal.vStr c.comment),
           ("time", reifyTime c.time),
           ("trajectory", reifyTrajectory
              { c.trajectory with
                init_position := prunePosition c.trajectory.init_position,
                init_velocity := pruneVelocity c.trajectory.init_velocity }),
           ("ephemeris", DynVal.vList (List.map reifyEphemeris
              (List.filter (fun e => e.includeFlag) c.ephemeris))),
           ("output", reifyOutputSettings (pruneOutput c.output)),
           ("power", reifySignalPowerConfig c.power),
           ("almanac",
            DynVal.vList (List.map reifyAlmanac c.almanac))] := by
    rw [bk_cons_known
      (convertToDataclassF (Nat.succ (Nat.succ (Nat.succ (Nat.succ fuel)))))
      DCType.rootC "version" (DynVal.vRat c.version) _ _
      fiPlain (DynVal.vRat c.version) rfl rfl]
    rw [bk_cons_known
      (convertToDataclassF (Nat.succ (Nat.succ (Nat.succ (Nat.succ fuel)))))
      DCType.rootC "description" (DynVal.vStr c.description) _ _
      fiPlain (DynVal.vStr c.description) rfl rfl]
    rw [bk_cons_known
      (convertToDataclassF (Nat.succ (Nat.succ (Nat.succ (Nat.succ fuel)))))
      DCType.rootC "comment" (DynVal.vStr c.comment) _ _
      fiPlain (DynVal.vStr c.comment) rfl rfl]
    rw [bk_cons_known
      (convertToDataclassF (Nat.succ (Nat.succ (Nat.succ (Nat.succ fuel)))))
      DCType.rootC "time" (serTimeShape c.time) _ _
      (fiDC DCType.timeC) (reifyTime c.time) rfl hct]
    rw [bk_cons_known
      (convertToDataclassF (Nat.succ (Nat.succ (Nat.succ (Nat.succ fuel)))))
      DCType.rootC "trajectory" (serTrajShape c.trajectory) _ _
      (fiDC DCType.trajC)
      (reifyTrajectory
        { c.trajectory with
          init_position := prunePosition c.trajectory.init_position,
          init_velocity := pruneVelocity c.trajectory.init_velocity })
      rfl hctr]
    rw [bk_cons_known
      (convertToDataclassF (Nat.succ (Nat.succ (Nat.succ (Nat.succ fuel)))))
      DCType.rootC "ephemeris"
      (DynVal.vList
        ((c.ephemeris.filter (fun e => e.includeFlag)).map serEphShape)) _ _
      (fiListDC DCType.ephC)
      (DynVal.vList (List.map reifyEphemeris
        (List.filter (fun e => e.includeFlag) c.ephemeris))) rfl hce]
    rw [bk_cons_known
      (convertToDataclassF (Nat.succ (Nat.succ (Nat.succ (Nat.succ fuel)))))
      DCType.rootC "output" (serOutSetShape c.output) _ _
      (fiDC DCType.outSetC)
      (reifyOutputSettings (pruneOutput c.output)) rfl hcout]
    rw [bk_cons_known
      (convertToDataclassF (Nat.succ (Nat.succ (Nat.succ (Nat.succ fuel)))))
      DCType.rootC "power" (serSigPowCfgShape c.power) _ _
      (fiDC DCType.sigPowCfgC)
      (reifySignalPowerConfig c.power) rfl hcpow]
    rw [bk_cons_known
      (convertToDataclassF (Nat.succ (Nat.succ (Nat.succ (Nat.succ fuel)))))
      DCType.rootC "almanac"
      (DynVal.vList (c.almanac.map serAlmanacShape)) _ _
      (fiListDC DCType.almanacC)
      (DynVal.vList (List.map reifyAlmanac c.almanac)) rfl hca]
    rfl
  exact convert_dc_eval
    (Nat.succ (Nat.succ (Nat.succ (Nat.succ fuel)))) DCType.rootC _ _ _
    hk rfl

/-! ## The claims about the configuration (de)serializer -/

/-- C1 counterexample: the round trip is NOT the identity on every
active field — a `SystemSelect` whose `signal` is the empty string (an
active field under every tag value) comes back as the repaired
per-constellation default `L1CA`, so the configuration is corrupted. -/
theorem claim1_counterexample :
    fromDictDyn (toDictDyn (reifyConfig cX1))
        = Except.ok (reifyConfig cX1fix)
      ∧ cX1.output.system_select
        = [⟨ConstellationTypeT.GPS, "", true⟩]
      ∧ cX1fix.output.system_select
        = [⟨ConstellationTypeT.GPS, "L1CA", true⟩]
      ∧ cX1fix.output.system_select ≠ cX1.output.system_select :=
  ⟨rfl, rfl, rfl, by decide⟩

/-- C1 (amended): for every typed configuration whose system selections
all carry a non-empty signal and whose SCU velocity units avoid the
legacy tokens `m/s`, `km/h` and `deg`, deserializing the serialized
mapping reproduces the configuration restricted to the fields active
under its own tag values: pruned fields come back as defaults and the
ephemeris list keeps exactly its `include = true` entries. -/
theorem claim1_roundtrip_amended (c : GNSSSignalSimConfigT)
    (hsig : ∀ s ∈ c.output.system_select, s.signal ≠ "")
    (hunit : c.trajectory.init_velocity.type = VelocityTypeT.SCU →
      c.trajectory.init_velocity.speed_unit ≠ "m/s"
        ∧ c.trajectory.init_velocity.speed_unit ≠ "km/h"
        ∧ c.trajectory.init_velocity.angle_unit ≠ "deg") :
    fromDictDyn (toDictDyn (reifyConfig c))
      = Except.ok (reifyConfig (pruneConfig c)) := by
  have hser : toDictDyn (reifyConfig c) = serRootShape c := by
    show convertDataclassF 64 (reifyConfig c) = serRootShape c
    rw [show (64 : Nat) = Nat.succ (Nat.succ (Nat.succ (Nat.succ 60)))
          from rfl]
    exact ser_root 60 c hsig
  show convertToDataclassF 64 (Option.some DCType.rootC)
    (toDictDyn (reifyConfig c)) = Except.ok (reifyConfig (pruneConfig c))
  rw [hser, show (64 : Nat)
        = Nat.succ (Nat.succ (Nat.succ (Nat.succ (Nat.succ 59)))) from rfl]
  exact from_root 59 c hunit

/-- C1 witness: the amended round trip at a concrete configuration. -/
theorem claim1_amended_witness :
    fromDictDyn (toDictDyn (reifyConfig cW1))
      = Except.ok (reifyConfig (pruneConfig cW1)) :=
  claim1_roundtrip_amended cW1
    (by
      intro s hs
      have hs2 : s ∈ [(⟨ConstellationTypeT.GPS, "L1CA", true⟩
          : SystemSelectT)] := hs
      rw [List.mem_singleton] at hs2
      subst hs2
      decide)
    (fun _ => ⟨by decide, by decide, by decide⟩)

/-- C2: serialization applies the type-conditional omission rules — the
serialized `PositionConfig`, `VelocityConfig` and `OutputSettings`
mappings carry exactly the keys of the active type group (optional
members only when present), whatever the in-memory values of the
inactive fields. -/
theorem claim2_omission_rules (g : Nat) (p : PositionConfigT)
    (v : VelocityConfigT) (o : OutputSettingsT) :
    dictKeys (convertDataclassF (Nat.succ g) (reifyPosition p))
      = (match p.type with
         | PositionTypeT.LLA =>
            ["type", "format", "longitude", "latitude", "altitude"]
         | PositionTypeT.ECEF =>
            "type" :: (optName "x" p.x ++ optName "y" p.y ++ optName "z" p.z))
    ∧ dictKeys (convertDataclassF (Nat.succ g) (reifyVelocity v))
      = (match v.type with
         | VelocityTypeT.SCU =>
            ["type", "speed", "course", "up", "speedUnit", "angleUnit"]
         | VelocityTypeT.ENU =>
            "type" :: "up" :: (optName "east" v.east ++ optName "north" v.north
              ++ ["eastUnit", "northUnit", "upUnit"])
         | VelocityTypeT.ECEF =>
            "type" :: (optName "x" v.x ++ optName "y" v.y ++ optName "z" v.z
              ++ ["xUnit", "yUnit", "zUnit"]))
    ∧ dictKeys (convertDataclassF (Nat.succ (Nat.succ (Nat.succ g)))
        (reifyOutputSettings o))
      = (match o.type with
         | OutputTypeT.IF_DATA =>
            ["type", "format", "sampleFreq", "centerFreq", "name", "config",
             "systemSelect"]
         | OutputTypeT.POSITION =>
            ["type", "format", "interval", "name", "config", "systemSelect"]
         | OutputTypeT.OBSERVATION =>
            ["type", "format", "interval", "name", "config",
             "systemSelect"]) := by
  refine ⟨?_, ?_, ?_⟩
  · rcases p with ⟨ty, fo, lo, la, al, x, y, z⟩
    cases ty
    · rfl
    · cases x <;> cases y <;> cases z <;> rfl
  · rcases v with ⟨ty, sp, co, up, ea, no, x, y, z, su, au, eu, nu, uu, xu,
      yu, zu⟩
    cases ty
    · rfl
    · cases ea <;> cases no <;> rfl
    · cases x <;> cases y <;> cases z <;> rfl
  · rcases o with ⟨ty, fmt, sf, cf, iv, nm, cfg, ssl⟩
    cases ty <;> rfl

/-- C3: the serialized `ephemeris` array is exactly the in-order
subsequence of entries whose `include` flag is truthy, and a serialized
ephemeris entry never carries an `include` key. -/
theorem claim3_ephemeris_filter (g : Nat) (c : GNSSSignalSimConfigT)
    (e : EphemerisConfigT) :
    dictGet (convertDataclassF (Nat.succ (Nat.succ (Nat.succ (Nat.succ g))))
        (reifyConfig c)) "ephemeris"
      = Option.some (DynVal.vList
          ((c.ephemeris.filter (fun e2 => e2.includeFlag)).map serEphShape))
    ∧ dictHasKey (convertDataclassF (Nat.succ g) (reifyEphemeris e))
        "include" = false := by
  constructor
  · have h1 : dictGet
        (convertDataclassF (Nat.succ (Nat.succ (Nat.succ (Nat.succ g))))
          (reifyConfig c)) "ephemeris"
        = Option.some (DynVal.vList
            (List.map (convertDataclassF (Nat.succ (Nat.succ (Nat.succ g))))
              (List.filter (fun e2 => pyTruthy (getattrInclude e2))
                (List.map reifyEphemeris c.ephemeris)))) := rfl
    have h2 : List.map
        (convertDataclassF (Nat.succ (Nat.succ (Nat.succ g)))
          ∘ reifyEphemeris)
        (List.filter (fun e2 => e2.includeFlag) c.ephemeris)
        = List.map serEphShape
            (List.filter (fun e2 => e2.includeFlag) c.ephemeris) :=
      List.map_congr_left (fun e2 _ => ser_eph (Nat.succ (Nat.succ g)) e2)
    rw [h1, filter_reify_eph, List.map_map, h2]
  · rfl

/-- C4: serializing a `SystemSelect` with an empty signal emits the
per-constellation default signal (`GPS → L1CA`, `BDS → B1C`,
`Galileo → E1`, `GLONASS → G1`, anything else `L1CA`) while the
in-memory object keeps its empty signal, and deserialization never
repairs: a serialized signal comes back verbatim. -/
theorem claim4_signal_repair (g fuel : Nat) (sys : ConstellationTypeT)
    (en : Bool) (s : SystemSelectT) :
    convertDataclassF (Nat.succ g) (reifySystemSelect ⟨sys, "", en⟩)
      = DynVal.vDict
          [("system", DynVal.vStr sys.val),
           ("signal", DynVal.vStr
              (match sys with
               | ConstellationTypeT.GPS => "L1CA"
               | ConstellationTypeT.BDS => "B1C"
               | ConstellationTypeT.GALILEO => "E1"
               | ConstellationTypeT.GLONASS => "G1"
               | ConstellationTypeT.QZSS => "L1CA"
               | ConstellationTypeT.IRNSS => "L1CA")),
           ("enable", DynVal.vBool en)]
    ∧ reifySystemSelect ⟨sys, "", en⟩
        = DynVal.vDc DCType.sysSelC
            [DynVal.vEnum EnumTy.constellationType sys.val, DynVal.vStr "",
             DynVal.vBool en]
    ∧ convertToDataclassF (Nat.succ fuel) (Option.some DCType.sysSelC)
        (serSysSelShape s) = Except.ok (reifySystemSelect s) := by
  refine ⟨?_, rfl, ?_⟩
  · cases sys <;> rfl
  · have h := from_sysSel_gen fuel s.system.val s.signal s.enable
    rw [enum_getD_constellationType] at h
    exact h

/-- C5 counterexample: deserialization CAN raise — a list element for a
dataclass-typed field that is an empty mapping raises `TypeError` on the
first missing required field, and one that is not a mapping raises
`AttributeError` (no `.items()`). -/
theorem claim5_counterexample :
    fromDictDyn (DynVal.vDict [("almanac", DynVal.vList [DynVal.vDict []])])
        = Except.error (PyError.typeError "system")
      ∧ fromDictDyn (DynVal.vDict [("almanac", DynVal.vList [DynVal.vInt 1])])
        = Except.error (PyError.attributeError "items") :=
  ⟨rfl, rfl⟩

/-- C5 (amended): the drift-tolerance parts that do hold — an unmatched
enum string converts to `None` instead of raising, a key that matches no
model field is skipped, and an entirely empty mapping deserializes to
the all-defaults configuration; but a mapping can still raise when a
required field of a nested dataclass is missing or a list element is
not a mapping. -/
theorem claim5_drift_amended (fuel : Nat) (t : DCType) (e : EnumTy)
    (sk k s : String) (v : DynVal) (rest acc : List (String × DynVal))
    (hdrift : (enumValues e).contains s = false)
    (hunk : lookupField t (toSnakeCase k) = Option.none) :
    convertFieldAux (convertToDataclassF fuel) (fiEnum e) sk (DynVal.vStr s)
        = Except.ok DynVal.vNone
      ∧ buildKwargsAux (convertToDataclassF fuel) t ((k, v) :: rest) acc
        = buildKwargsAux (convertToDataclassF fuel) t rest acc
      ∧ fromDictDyn (DynVal.vDict [])
        = Except.ok (DynVal.vDc DCType.rootC
            [DynVal.vRat 1, DynVal.vStr "GNSSSignalSim Configuration",
             DynVal.vStr "", defTimeConfigV, defTrajectoryConfigV,
             DynVal.vList [], defOutputSettingsV, defSignalPowerConfigV,
             DynVal.vList []]) := by
  refine ⟨?_, ?_, rfl⟩
  · show Except.ok ((enumOfValue e s).getD DynVal.vNone)
      = Except.ok DynVal.vNone
    have h0 : enumOfValue e s
        = (if (enumValues e).contains s = true
           then Option.some (DynVal.vEnum e s) else Option.none) := rfl
    rw [h0, hdrift]
    rfl
  · simp only [buildKwargsAux, hunk]

/-- C5 witness: the amended drift behaviour at concrete inputs. -/
theorem claim5_witness :
    convertFieldAux (convertToDataclassF 1) (fiEnum EnumTy.timeType) "type"
        (DynVal.vStr "bogus") = Except.ok DynVal.vNone
      ∧ buildKwargsAux (convertToDataclassF 1) DCType.rootC
          [("zzz", DynVal.vInt 0)] []
        = buildKwargsAux (convertToDataclassF 1) DCType.rootC [] []
      ∧ fromDictDyn (DynVal.vDict [])
        = Except.ok (DynVal.vDc DCType.rootC
            [DynVal.vRat 1, DynVal.vStr "GNSSSignalSim Configuration",
             DynVal.vStr "", defTimeConfigV, defTrajectoryConfigV,
             DynVal.vList [], defOutputSettingsV, defSignalPowerConfigV,
             DynVal.vList []]) :=
  claim5_drift_amended 1 DCType.rootC EnumTy.timeType "type" "zzz" "bogus"
    (DynVal.vInt 0) [] [] rfl rfl

/-- C10: on every field name declared in the configuration dataclasses,
`to_snake_case` inverts `to_camel_case`, so every emitted key maps back
to the field it came from. -/
theorem claim10_key_roundtrip :
    ∀ t : DCType,
      ((dcFields t).map (fun fd => fd.name)).all
        (fun nm => toSnakeCase (toCamelCase nm) == nm) = true := by
  intro t
  cases t <;> rfl

end GnssSim
